import Mathlib

/-
  Verification development for the ClipChef video-repurposing app.

  The definitions below are a shallow embedding of the TypeScript sources:

  * src/services/VideoProcessingService.ts  (job orchestrator: message
    handling, step/job state machine, cancel, retry);
  * src/services/WhisperTranscriptionService.ts, class AdvancedSceneDetection
    (boundary fusion: weighting, sorting, 2-second merge, refinement,
    scene materialization, contextual merge pass);
  * the ClipGenerator module (calculateOptimalDuration);
  * the stub VideoProcessingWorker (VideoProcessor.detectScenes).

  Modelling conventions:
  * JavaScript numbers are modelled as rationals; the isNaN checks of the
    source are vacuously false in this model and are noted where dropped.
  * new Date() values are modelled by an explicit now parameter of type Nat.
  * Worker dispatch (postMessage / fetch) has no synchronous effect on the
    orchestrator state and is modelled as the identity on the job;
    handler functions model exactly the synchronous mutations of the source.
  * Fields never read by any claim (thumbnail data URLs, blob payloads,
    description strings, job.metadata, contextScore which is a
    transcendental function of the duration) are either dropped or kept as
    fixed placeholder strings; this is noted at each definition.
-/

/-! # Part 1: data model (src/types/video.ts) -/

inductive StepStatus
  | pending | active | completed | failed
deriving DecidableEq, Repr

inductive JobStatus
  | queued | processing | completed | failed | cancelled
deriving DecidableEq, Repr

inductive ClipStatus
  | pending | processing | completed | failed
deriving DecidableEq, Repr

/-- ProcessingStep from src/types/video.ts (description string dropped). -/
structure ProcessingStep where
  id : String
  progress : ℚ
  status : StepStatus
  startTime : Option Nat := none
  endTime : Option Nat := none
  error : Option String := none
deriving DecidableEq, Repr

/-- ClipGenerationJob from src/types/video.ts (videoId and the embedded
preset are dropped: no claim reads them; outputUrl/thumbnail are modelled as
placeholder strings). -/
structure ClipGenerationJob where
  id : String
  sceneId : String
  platform : String
  status : ClipStatus
  progress : ℚ
  outputUrl : Option String := none
  thumbnail : Option String := none
  createdAt : Nat := 0
  completedAt : Option Nat := none
deriving DecidableEq, Repr

/-- The part of DetectedScene the orchestrator reads (id and the validated
time fields; thumbnail as a placeholder string). -/
structure OScene where
  id : String
  startTime : ℚ
  endTime : ℚ
  duration : ℚ
  thumbnail : String := ""
deriving DecidableEq, Repr

/-- VideoProcessingJob from src/types/video.ts (videoFile and metadata
dropped: no claim reads them). -/
structure VideoProcessingJob where
  id : String
  status : JobStatus
  steps : List ProcessingStep
  scenes : List OScene
  clips : List ClipGenerationJob
  progress : ℚ
  error : Option String := none
  currentStep : Option String := none
  updatedAt : Nat := 0
deriving DecidableEq, Repr

inductive WorkerMsgType
  | progress | complete | error | log
deriving DecidableEq, Repr

/-- The payload of a complete message: data.scenes when present, and whether
a data.clip payload is present (its bytes are irrelevant to the state
transition: the handler only flips the matching clip entry). -/
structure CompleteData where
  scenes : Option (List OScene) := none
  clip : Bool := false
deriving DecidableEq, Repr

/-- WorkerMessage from src/types/video.ts, with the data field split by
message type. -/
structure WorkerMessage where
  type : WorkerMsgType
  jobId : String
  stepId : Option String := none
  progressVal : ℚ := 0
  completeData : CompleteData := {}
  errorMsg : String := ""
deriving DecidableEq, Repr

/-! # Part 2: orchestrator (src/services/VideoProcessingService.ts)

Jobs-map state: the Map of jobs is modelled as a list of jobs looked up by
id (processVideo inserts each job under its own id). -/

/-- In-place mutation of the first element matching p, as produced by
JavaScript array.find(p) followed by field assignments on the result. -/
def updateFirst (p : α → Bool) (f : α → α) : List α → List α
  | [] => []
  | a :: t => if p a then f a :: t else a :: updateFirst p f t

/-- updateJobProgress, VideoProcessingService.ts lines 128-150.
If job.steps is empty the JavaScript progress expression is NaN; jobs always
carry two steps, and rational division by zero stands in for that case. -/
def updateJobProgress (job : VideoProcessingJob) (stepId : Option String)
    (progressVal : ℚ) (now : Nat) : VideoProcessingJob :=
  let job :=
    match stepId with
    | some sid =>
        let steps :=
          updateFirst (fun (s : ProcessingStep) => s.id == sid)
            (fun s => { s with progress := progressVal, status := .active }) job.steps
        { job with steps := steps }
    | none => job
  let totalSteps : ℚ := job.steps.length
  let completedSteps : ℚ := (job.steps.filter (fun s => s.status == .completed)).length
  let job :=
    match job.steps.find? (fun s => s.status == .active) with
    | some activeStep =>
        { job with progress := ((completedSteps + activeStep.progress / 100) / totalSteps) * 100 }
    | none => { job with progress := (completedSteps / totalSteps) * 100 }
  { job with updatedAt := now }

/-- handleStepComplete lines 154-161: mark the step named by stepId
completed. -/
def markStepCompleted (job : VideoProcessingJob) (stepId : Option String)
    (now : Nat) : VideoProcessingJob :=
  match stepId with
  | some sid =>
      let steps :=
        updateFirst (fun (s : ProcessingStep) => s.id == sid)
          (fun s => { s with status := .completed, progress := 100, endTime := some now })
          job.steps
      { job with steps := steps }
  | none => job

/-- The scene validity filter of handleStepComplete lines 173-190.  The
typeof/isNaN guards of the source are vacuously true for rationals. -/
def sceneValid (s : OScene) : Bool :=
  (0 ≤ s.startTime) && (s.startTime < s.endTime) && (0 < s.duration)

/-- handleStepComplete lines 169-210: filter the delivered scenes and store
them on the job (main-thread thumbnail generation replaces each thumbnail;
modelled by a placeholder string). -/
def applyScenes (job : VideoProcessingJob) (d : CompleteData) : VideoProcessingJob :=
  match d.scenes with
  | some ss =>
      { job with scenes := (ss.filter sceneValid).map (fun s => { s with thumbnail := "thumb" }) }
  | none => job

/-- The clip-entry update of handleStepComplete lines 212-230. -/
def completeClipEntry (now : Nat) (c : ClipGenerationJob) : ClipGenerationJob :=
  { c with status := .completed, outputUrl := some "blob", thumbnail := some "thumb",
           completedAt := some now, progress := 100 }

/-- handleStepComplete lines 212-230: when data.clip is present, the clip
whose id equals stepId is marked completed. -/
def clipsAfterPayload (cs : List ClipGenerationJob) (stepId : Option String)
    (d : CompleteData) (now : Nat) : List ClipGenerationJob :=
  if d.clip then
    match stepId with
    | some sid => updateFirst (fun (c : ClipGenerationJob) => c.id == sid) (completeClipEntry now) cs
    | none => cs
  else cs

def applyClipPayload (job : VideoProcessingJob) (stepId : Option String)
    (d : CompleteData) (now : Nat) : VideoProcessingJob :=
  { job with clips := clipsAfterPayload job.clips stepId d now }

/-- JavaScript String.prototype.startsWith, on the character lists of the
strings (String.startsWith of the core library does not reduce in the
kernel). -/
def strStartsWith (s pre : String) : Bool :=
  pre.data.isPrefixOf s.data

/-- handleStepComplete lines 232-244: on a message whose stepId starts with
the prefix of clip ids, mark the generate-clips step completed when EVERY
clip has status completed (note: completed, not merely terminal) and there
is at least one clip. -/
def checkAllClipsComplete (job : VideoProcessingJob) (stepId : Option String)
    (now : Nat) : VideoProcessingJob :=
  match stepId with
  | some sid =>
      if strStartsWith sid "clip_" then
        if job.clips.all (fun c => c.status == .completed) && !job.clips.isEmpty then
          let steps :=
            updateFirst (fun (s : ProcessingStep) => s.id == "generate-clips")
              (fun s => { s with status := .completed, progress := 100, endTime := some now })
              job.steps
          { job with steps := steps }
        else job
      else job
  | none => job

/-- handleStepError, VideoProcessingService.ts lines 268-282: the step named
by stepId (when found) is marked failed, and the WHOLE job is marked failed
unconditionally. -/
def handleStepError (job : VideoProcessingJob) (stepId : Option String)
    (errStr : String) (now : Nat) : VideoProcessingJob :=
  let job :=
    match stepId with
    | some sid =>
        let steps :=
          updateFirst (fun (s : ProcessingStep) => s.id == sid)
            (fun s => { s with status := .failed, error := some errStr, endTime := some now })
            job.steps
        { job with steps := steps }
    | none => job
  { job with status := .failed, error := some errStr, updatedAt := now }

/-- The six hard-coded platform presets of getPlatformPresets (only the ids
are read by the state transitions that the claims mention). -/
def platformPresetIds : List String :=
  ["tiktok", "instagram-reels", "instagram-post", "youtube-shorts", "linkedin", "twitter"]

/-- generateClipsForAllPlatforms, lines 380-466.  With no scenes the
generate-clips step and the whole job are immediately marked completed;
otherwise one clip per scene x preset is pushed (created pending, set to
processing before dispatch) and the generate-clips step is set active. -/
def generateClipsForAllPlatforms (job : VideoProcessingJob) (now : Nat) : VideoProcessingJob :=
  if job.scenes.isEmpty then
    let steps :=
      updateFirst (fun (s : ProcessingStep) => s.id == "generate-clips")
        (fun s => { s with status := .completed, progress := 100, endTime := some now }) job.steps
    { job with steps := steps, status := .completed, progress := 100, updatedAt := now }
  else
    let newClips := (job.scenes.map (fun sc => platformPresetIds.map (fun pid =>
      ({ id := "clip_" ++ sc.id ++ "_" ++ pid, sceneId := sc.id, platform := pid,
         status := .processing, progress := 0, createdAt := now } : ClipGenerationJob)))).flatten
    let steps :=
      updateFirst (fun (s : ProcessingStep) => s.id == "generate-clips")
        (fun s => { s with status := .active, progress := 0 }) job.steps
    { job with clips := job.clips ++ newClips, steps := steps, updatedAt := now }

/-- executeStep, lines 300-378.  The detect-scenes branch only dispatches an
asynchronous worker message (no synchronous job mutation); when the worker is
unavailable the step fails via handleStepError. -/
def executeStep (job : VideoProcessingJob) (stepId : String) (now : Nat)
    (workerReady : Bool) : VideoProcessingJob :=
  if !workerReady then handleStepError job (some stepId) "Worker not available" now
  else if stepId == "detect-scenes" then job
  else if stepId == "generate-clips" then generateClipsForAllPlatforms job now
  else handleStepError job (some stepId) ("Unknown step: " ++ stepId) now

/-- startNextStep, lines 284-298: activate the first pending step (setting
its start time) and execute it. -/
def startNextStep (job : VideoProcessingJob) (now : Nat) (workerReady : Bool) :
    VideoProcessingJob :=
  match job.steps.find? (fun s => s.status == .pending) with
  | none => job
  | some next =>
      let steps :=
        updateFirst (fun (s : ProcessingStep) => s.status == .pending)
          (fun s => { s with status := .active, startTime := some now }) job.steps
      let job := { job with steps := steps, currentStep := some next.id }
      executeStep job next.id now workerReady

/-- handleStepComplete, lines 152-266, as the composite of its phases in
source order; the final branch either completes the job (when every step is
completed) or starts the next step and refreshes the generate-clips progress
from the completed-clip count. -/
def handleStepComplete (job : VideoProcessingJob) (stepId : Option String)
    (d : CompleteData) (now : Nat) (workerReady : Bool) : VideoProcessingJob :=
  let job := markStepCompleted job stepId now
  let job := applyScenes job d
  let job := applyClipPayload job stepId d now
  let job := checkAllClipsComplete job stepId now
  let job :=
    if job.steps.all (fun s => s.status == .completed) then
      { job with status := .completed, progress := 100 }
    else
      let job := startNextStep job now workerReady
      match job.steps.find? (fun s => s.id == "generate-clips" && s.status == .active) with
      | some _ =>
          if !job.clips.isEmpty then
            let pr : ℚ :=
              ((job.clips.filter (fun c => c.status == .completed)).length : ℚ)
                / (job.clips.length : ℚ) * 100
            let steps :=
              updateFirst (fun (s : ProcessingStep) => s.id == "generate-clips" && s.status == .active)
                (fun s => { s with progress := pr }) job.steps
            { job with steps := steps }
          else job
      | none => job
  { job with updatedAt := now }

/-- handleWorkerMessage, lines 98-126: look the job up by message.jobId; a
message whose jobId is not a key of the jobs map is discarded.  log messages
only print. -/
def handleWorkerMessage (jobs : List VideoProcessingJob) (m : WorkerMessage)
    (now : Nat) (workerReady : Bool) : List VideoProcessingJob :=
  updateFirst (fun (j : VideoProcessingJob) => j.id == m.jobId)
    (fun job =>
      match m.type with
      | .progress => updateJobProgress job m.stepId m.progressVal now
      | .complete => handleStepComplete job m.stepId m.completeData now workerReady
      | .error => handleStepError job m.stepId m.errorMsg now
      | .log => job)
    jobs

/-- cancelJob, lines 606-618: set the job status to cancelled.  No fence is
installed anywhere for later messages. -/
def cancelJob (jobs : List VideoProcessingJob) (jobId : String) (now : Nat) :
    List VideoProcessingJob :=
  updateFirst (fun (j : VideoProcessingJob) => j.id == jobId)
    (fun j => { j with status := .cancelled, updatedAt := now }) jobs

/-- The per-step reset of retryJob lines 624-632. -/
def resetFailedStep (s : ProcessingStep) : ProcessingStep :=
  if s.status == .failed then
    { s with status := .pending, progress := 0, error := none,
             startTime := none, endTime := none }
  else s

/-- retryJob body for the found job, lines 622-640: only acts when the job
status is failed; resets failed steps, marks the job processing, and resumes
from the first pending step. -/
def retryJobOne (job : VideoProcessingJob) (now : Nat) (workerReady : Bool) :
    VideoProcessingJob :=
  if job.status == .failed then
    let job := { job with steps := job.steps.map resetFailedStep }
    let job := { job with status := .processing, error := none, progress := 0, updatedAt := now }
    startNextStep job now workerReady
  else job

/-- retryJob, lines 620-641, on the jobs map. -/
def retryJob (jobs : List VideoProcessingJob) (jobId : String) (now : Nat)
    (workerReady : Bool) : List VideoProcessingJob :=
  updateFirst (fun (j : VideoProcessingJob) => j.id == jobId) (fun j => retryJobOne j now workerReady) jobs

/-! # Part 3: boundary fusion and scene materialization
(src/services/WhisperTranscriptionService.ts, class AdvancedSceneDetection)

The five analyzers sample frames/audio through canvas and WebAudio; their
boundary lists enter the model as inputs.  Every timestamp an analyzer can
emit has the form frame / frameRate with frame < duration * frameRate, so
analyzer timestamps lie in [0, duration); theorems carry that as a
hypothesis where needed.  Boundary metadata is modelled by the three fields
the materializer reads. -/

inductive MotionLevel
  | low | medium | high
deriving DecidableEq, Repr

/-- SceneBoundary (WhisperTranscriptionService.ts lines 1110-1115); the
metadata record is narrowed to the fields read by createSceneObject. -/
structure SceneBoundary where
  timestamp : ℚ
  confidence : ℚ
  method : String
  mdCurrentSpeakers : Option Nat := none
  mdMotionLevel : Option ℚ := none
  mdAmplitude : Option ℚ := none
deriving DecidableEq, Repr

/-- One algorithm entry of SceneDetectionConfig.algorithms (the faceDetection
threshold is named speakerChangeThreshold in the source; thresholds are only
read inside the analyzers, which are inputs here). -/
structure AlgoSettings where
  enabled : Bool
  threshold : ℚ := 0
  weight : ℚ := 1
deriving DecidableEq, Repr

/-- SceneDetectionConfig (sensitivity is only read by the stub worker of
Part 5 and is omitted here). -/
structure DetectionConfig where
  pixelDifference : AlgoSettings
  audioAmplitude : AlgoSettings
  colorHistogram : AlgoSettings
  motionVector : AlgoSettings
  faceDetection : AlgoSettings
  minSceneDuration : ℚ
  maxScenes : Nat
  preserveContext : Bool := false
  maintainNarrativeFlow : Bool := false
deriving DecidableEq, Repr

/-- The JavaScript expression weight || 1 of combineDetectionResults line
844: a zero (or missing) weight falls back to 1. -/
def effectiveWeight (w : ℚ) : ℚ := if w = 0 then 1 else w

/-- Weighting phase of combineDetectionResults lines 842-852, in the object
order of the detectionResults literal. -/
def weightedBoundaries (cfg : DetectionConfig)
    (pd aa ch mv fd : List SceneBoundary) : List SceneBoundary :=
  (pd.map (fun b => { b with confidence := b.confidence * effectiveWeight cfg.pixelDifference.weight }))
    ++ (aa.map (fun b => { b with confidence := b.confidence * effectiveWeight cfg.audioAmplitude.weight }))
    ++ (ch.map (fun b => { b with confidence := b.confidence * effectiveWeight cfg.colorHistogram.weight }))
    ++ (mv.map (fun b => { b with confidence := b.confidence * effectiveWeight cfg.motionVector.weight }))
    ++ (fd.map (fun b => { b with confidence := b.confidence * effectiveWeight cfg.faceDetection.weight }))

/-- One iteration of the merge loop of combineDetectionResults lines
861-872: a boundary within 2 seconds of the last retained boundary replaces
it when strictly more confident and is dropped otherwise. -/
def mergeInto (acc : List SceneBoundary) (b : SceneBoundary) : List SceneBoundary :=
  match acc.getLast? with
  | none => acc ++ [b]
  | some lastB =>
      if |b.timestamp - lastB.timestamp| < 2 then
        if lastB.confidence < b.confidence then acc.dropLast ++ [b] else acc
      else acc ++ [b]

/-- Merge phase of combineDetectionResults lines 857-872. -/
def mergeBoundaries (l : List SceneBoundary) : List SceneBoundary :=
  l.foldl mergeInto []

/-- combineDetectionResults, lines 836-875: weight, sort ascending by
timestamp, merge within a 2 second window. -/
def combineDetectionResults (cfg : DetectionConfig)
    (pd aa ch mv fd : List SceneBoundary) : List SceneBoundary :=
  mergeBoundaries
    (List.insertionSort (fun a b => a.timestamp ≤ b.timestamp)
      (weightedBoundaries cfg pd aa ch mv fd))

/-- The synthetic boundary prepended at t = 0 in refineBoundaries line 884. -/
def startBoundary : SceneBoundary :=
  { timestamp := 0, confidence := 1, method := "start" }

/-- The synthetic boundary appended at t = duration in refineBoundaries
line 886. -/
def endBoundary (totalDuration : ℚ) : SceneBoundary :=
  { timestamp := totalDuration, confidence := 1, method := "end" }

/-- The greedy spacing filter of refineBoundaries lines 890-899: keep a
boundary when it is at least minDuration after the last KEPT boundary. -/
def refineFilter (minDuration : ℚ) : SceneBoundary → List SceneBoundary → List SceneBoundary
  | _, [] => []
  | lastB, b :: rest =>
      if minDuration ≤ b.timestamp - lastB.timestamp then b :: refineFilter minDuration b rest
      else refineFilter minDuration lastB rest

/-- refineBoundaries, lines 877-902. -/
def refineBoundaries (bs : List SceneBoundary) (minDuration totalDuration : ℚ) :
    List SceneBoundary :=
  startBoundary :: refineFilter minDuration startBoundary (bs ++ [endBoundary totalDuration])

/-- calculateNarrativeImportance, lines 1073-1082.  NOTE: the source takes
the SCENE endTime as approximate total duration, so the position is
startTime / endTime of the scene, not startTime / video duration. -/
def calculateNarrativeImportance (startTime endTime _duration : ℚ) : ℚ :=
  let totalDuration := endTime
  let position := startTime / totalDuration
  if position < 0.1 ∨ 0.9 < position then 0.9
  else if 0.4 < position ∧ position < 0.6 then 0.8
  else 0.5

/-- calculateViralPotential, lines 1084-1098. -/
def calculateViralPotential (b : SceneBoundary) (duration : ℚ) : ℚ :=
  let score := b.confidence
  let score := if 10 ≤ duration ∧ duration ≤ 30 then score * 1.2 else score
  let score :=
    if b.method = "motionVector" ∨ b.method = "audioAmplitude" then score * 1.1 else score
  min score 1

/-- Speakers of createSceneObject line 948: metadata.currentSpeakers is a
truthiness test, so 0 (and absence) yields the unknown speaker. -/
def speakersOf (cur : Option Nat) : List String :=
  match cur with
  | some n => if n = 0 then ["unknown"] else ["speaker_" ++ toString n]
  | none => ["unknown"]

/-- Motion level of createSceneObject line 950 (an absent metadata value
compares as false in JavaScript, giving low). -/
def motionLevelOf (m : Option ℚ) : MotionLevel :=
  match m with
  | some v => if 0.7 < v then .high else if 0.3 < v then .medium else .low
  | none => .low

/-- Average amplitude of createSceneObject line 952: metadata.amplitude ||
0.5, so zero or absent amplitude falls back to 0.5. -/
def avgAmplitudeOf (a : Option ℚ) : ℚ :=
  match a with
  | some v => if v = 0 then 0.5 else v
  | none => 0.5

/-- DetectedScene as produced by createSceneObject (thumbnail, description
and the per-method score record are dropped; contextScore is a
transcendental exp of the duration and is dropped: no claim reads them). -/
structure DetectedScene where
  id : String
  startTime : ℚ
  endTime : ℚ
  duration : ℚ
  confidence : ℚ
  narrativeImportance : ℚ
  viralPotential : ℚ
  speakers : List String
  motionLevel : MotionLevel
  averageAmplitude : ℚ
deriving DecidableEq, Repr

/-- createSceneObject, lines 904-957 (state-free part). -/
def createSceneObject (id : String) (startTime endTime : ℚ) (b : SceneBoundary) :
    DetectedScene :=
  let duration := endTime - startTime
  { id := id, startTime := startTime, endTime := endTime, duration := duration,
    confidence := b.confidence,
    narrativeImportance := calculateNarrativeImportance startTime endTime duration,
    viralPotential := calculateViralPotential b duration,
    speakers := speakersOf b.mdCurrentSpeakers,
    motionLevel := motionLevelOf b.mdMotionLevel,
    averageAmplitude := avgAmplitudeOf b.mdAmplitude }

/-- The scene loop of detectScenes lines 566-582: walk adjacent refined
boundary pairs, at most maxScenes of them; the JavaScript expression
refinedBoundaries[i+1]?.timestamp || duration falls back to the video
duration when the next timestamp is 0 (falsy). -/
def buildScenes (videoDuration minDuration : ℚ) :
    Nat → Nat → List SceneBoundary → List DetectedScene
  | _, _, [] => []
  | _, _, [_] => []
  | 0, _, _ :: _ :: _ => []
  | fuel + 1, i, a :: b :: t =>
      let startTime := a.timestamp
      let endTime := if b.timestamp = 0 then videoDuration else b.timestamp
      let sceneDuration := endTime - startTime
      if minDuration ≤ sceneDuration then
        createSceneObject ("scene_" ++ toString (i + 1)) startTime endTime a
          :: buildScenes videoDuration minDuration fuel (i + 1) (b :: t)
      else buildScenes videoDuration minDuration fuel (i + 1) (b :: t)

/-- shouldMergeForContext, lines 1100-1107. -/
def shouldMergeForContext (s1 s2 : DetectedScene) : Bool :=
  (s1.duration + s2.duration < 20)
    && s1.speakers.any (fun sp => s2.speakers.contains sp)
    && (s1.motionLevel == s2.motionLevel)

/-- The splice loop of applyContextualRefinements lines 970-985: merging
keeps the left scene record (extending its end time) and rechecks it against
the following scene. -/
def mergeScenesPass : List DetectedScene → List DetectedScene
  | a :: b :: t =>
      if shouldMergeForContext a b then
        mergeScenesPass ({ a with endTime := b.endTime, duration := b.endTime - a.startTime } :: t)
      else a :: mergeScenesPass (b :: t)
  | l => l
termination_by l => l.length

/-- applyContextualRefinements, lines 959-989; the merge loop only runs when
the llama context model is loaded (an external capability, passed as a
flag). -/
def applyContextualRefinements (scenes : List DetectedScene) (cfg : DetectionConfig)
    (llamaLoaded : Bool) : List DetectedScene :=
  if !cfg.preserveContext && !cfg.maintainNarrativeFlow then scenes
  else if llamaLoaded then mergeScenesPass scenes
  else scenes

/-- AdvancedSceneDetection.detectScenes, lines 502-591, from the point where
the analyzer results are in hand: gate disabled analyzers to empty lists,
combine, refine, materialize, and optionally apply contextual refinement. -/
def advDetectScenes (cfg : DetectionConfig) (videoDuration : ℚ)
    (pd aa ch mv fd : List SceneBoundary) (llamaLoaded : Bool) : List DetectedScene :=
  let pdR := if cfg.pixelDifference.enabled then pd else []
  let aaR := if cfg.audioAmplitude.enabled then aa else []
  let chR := if cfg.colorHistogram.enabled then ch else []
  let mvR := if cfg.motionVector.enabled then mv else []
  let fdR := if cfg.faceDetection.enabled then fd else []
  let combined := combineDetectionResults cfg pdR aaR chR mvR fdR
  let refined := refineBoundaries combined cfg.minSceneDuration videoDuration
  let scenes := buildScenes videoDuration cfg.minSceneDuration cfg.maxScenes 0 refined
  if cfg.preserveContext || cfg.maintainNarrativeFlow then
    applyContextualRefinements scenes cfg llamaLoaded
  else scenes

/-! # Part 4: platform clip composer durations (ClipGenerator module) -/

/-- The fields of DetectedScene read by calculateOptimalDuration (the
viralPotential reaching it is analysis.engagementFactors.viralPotential =
scene.viralPotential || 0.5, re-defaulted by || 0.5 at the call site). -/
structure CgScene where
  duration : ℚ
  viralPotential : ℚ
deriving DecidableEq, Repr

/-- The fields of PlatformPreset read by calculateOptimalDuration;
preferredLength models platform.contentGuidelines?.preferredLength. -/
structure CgPlatform where
  maxDuration : ℚ
  preferredLength : Option ℚ := none
deriving DecidableEq, Repr

/-- The double JavaScript fallback (scene.viralPotential || 0.5 when the
engagement factors are built, || 0.5 again in calculateOptimalDuration):
a zero viral potential becomes 0.5. -/
def effectiveViralPotential (vp : ℚ) : ℚ := if vp = 0 then 0.5 else vp

/-- ClipGenerator.calculateOptimalDuration, lines 301-319 of the module:
platformPreferred falls back to maxDuration when contentGuidelines or its
preferredLength is missing or zero (JavaScript || fallback). -/
def calculateOptimalDuration (scene : CgScene) (p : CgPlatform) : ℚ :=
  let baseDuration := scene.duration
  let platformMax := p.maxDuration
  let platformPreferred :=
    match p.preferredLength with
    | some v => if v = 0 then platformMax else v
    | none => platformMax
  let engagementMultiplier := effectiveViralPotential scene.viralPotential
  let targetDuration := platformPreferred * (0.7 + engagementMultiplier * 0.6)
  min (max 5 targetDuration) (min baseDuration platformMax)

/-- clamp written as in the specification text. -/
def clampQ (x lo hi : ℚ) : ℚ := min (max x lo) hi

/-- Modelled from the spec: the optimal-duration formula as the claim
states it, clamp(preferredLength * (0.7 + 0.6 * viralPotential), 5,
min(scene.duration, platform.maxDuration)), for comparison with the
source function calculateOptimalDuration. -/
def optimalDurationClaim (sceneDuration preferredLength maxDuration viralPotential : ℚ) : ℚ :=
  clampQ (preferredLength * (0.7 + 0.6 * viralPotential)) 5 (min sceneDuration maxDuration)

/-- Modelled from the spec: narrative importance as the claim states it,
with position measured as startTime over the TOTAL VIDEO duration, for
comparison with the source function calculateNarrativeImportance. -/
def narrativeImportanceClaim (startTime videoDuration : ℚ) : ℚ :=
  let position := startTime / videoDuration
  if position < 0.1 ∨ 0.9 < position then 0.9
  else if 0.4 < position ∧ position < 0.6 then 0.8
  else 0.5

/-! # Part 5: the stub worker detector (VideoProcessingWorker variant,
VideoProcessor.detectScenes, lines 122-280)

Math.random() values are supplied by an oracle rand : Nat -> Rat indexed by
loop iteration; only the randomFactor draw can affect whether the loop
reaches the broken scene construction, so only that draw is threaded.  The
isNaN guards of the source are vacuously false for rationals. -/

inductive Sensitivity
  | low | medium | high
deriving DecidableEq, Repr

/-- The stub worker config fields read by its detectScenes. -/
structure VPConfig where
  sensitivity : Sensitivity
  pdEnabled : Bool
  aaEnabled : Bool
  chEnabled : Bool
  mvEnabled : Bool
  fdEnabled : Bool
  minSceneDuration : ℚ
  maxScenes : ℤ
deriving DecidableEq, Repr

/-- metadata?.duration || 300 of line 132 (0 is falsy). -/
def vpEffDuration (metaDuration : Option ℚ) : ℚ :=
  match metaDuration with
  | some d => if d = 0 then 300 else d
  | none => 300

/-- Scene count before the algorithm bonus, lines 144-153. -/
def vpNumScenesBase (sens : Sensitivity) (duration minDur : ℚ) (maxScenes : ℤ) : ℤ :=
  match sens with
  | .high => min maxScenes ⌊duration / (minDur * 0.8)⌋
  | .low => max 2 (min maxScenes ⌊duration / 45⌋)
  | .medium => min maxScenes (max 3 ⌊duration / 25⌋)

def vpEnabledCount (c : VPConfig) : Nat :=
  ((([c.pdEnabled, c.aaEnabled, c.chEnabled, c.mvEnabled, c.fdEnabled]).filter id)).length

/-- Scene count after the enabled-algorithms bonus, lines 156-158. -/
def vpNumScenes (c : VPConfig) (duration : ℚ) : ℤ :=
  let bonus : ℚ := min ((vpEnabledCount c : ℚ) * 0.2) 1
  ⌊(vpNumScenesBase c.sensitivity duration c.minSceneDuration c.maxScenes : ℚ) * (1 + bonus)⌋

/-- Candidate scene duration for loop index i, lines 165-173 (rnd is the
Math.random() draw of that iteration). -/
def vpCandidateDuration (duration minDur : ℚ) (n : ℤ) (rnd : ℚ) (i : Nat) : ℚ :=
  let sceneStart := duration / (n : ℚ) * (i : ℚ)
  let targetSceneLength := max minDur (duration / (n : ℚ)) * (0.8 + rnd * 0.4)
  let sceneEnd := min (sceneStart + targetSceneLength) duration
  sceneEnd - sceneStart

/-- The error message produced when the scene construction of lines 232-251
dereferences the undefined identifier boundary (line 246) and the
surrounding catch rethrows at line 278. -/
def vpBoundaryError : String :=
  "Failed to detect scenes: ReferenceError: boundary is not defined"

/-- A scene record as the stub worker would produce one; no value of this
type is ever constructed by vpDetectScenes because the construction throws
first. -/
structure VPScene where
  startTime : ℚ
  endTime : ℚ
  duration : ℚ
deriving DecidableEq, Repr

/-- The scene loop of lines 161-271: an iteration whose candidate passes the
minimum-duration check reaches the scene literal, whose audioFeatures
dereference the undefined identifier boundary and throw; an iteration whose
candidate is too short continues. -/
def vpLoop (duration minDur : ℚ) (n : ℤ) (rand : Nat → ℚ) : List Nat → Except String Unit
  | [] => .ok ()
  | i :: rest =>
      if vpCandidateDuration duration minDur n (rand i) i < minDur then
        vpLoop duration minDur n rand rest
      else .error vpBoundaryError

/-- VideoProcessor.detectScenes of the stub worker, lines 122-280. -/
def vpDetectScenes (c : VPConfig) (metaDuration : Option ℚ) (rand : Nat → ℚ) :
    Except String (List VPScene) :=
  let duration := vpEffDuration metaDuration
  if duration ≤ 0 then .error "Failed to detect scenes: Error: Invalid video duration"
  else
    let n := vpNumScenes c duration
    match vpLoop duration c.minSceneDuration n rand (List.range n.toNat) with
    | .ok _ => .ok []
    | .error e => .error e

/-! # Part 6: statement predicates and concrete instances used by the claim
theorems -/

/-- The banding function shared by both readings of narrative importance:
0.9 on the outer 10 percent bands, 0.8 strictly inside the 40-60 percent
band, 0.5 otherwise. -/
def narrBand (position : ℚ) : ℚ :=
  if position < 0.1 ∨ 0.9 < position then 0.9
  else if 0.4 < position ∧ position < 0.6 then 0.8
  else 0.5

/-- Well-formedness of a detected scene list against a video duration, a
minimum scene duration and a scene cap: the invariant of claim C5. -/
def SceneListWf (videoDuration minDur : ℚ) (maxScenes : Nat) (l : List DetectedScene) : Prop :=
  (∀ s ∈ l, 0 ≤ s.startTime ∧ s.startTime < s.endTime ∧ s.endTime ≤ videoDuration ∧
      s.duration = s.endTime - s.startTime ∧ minDur ≤ s.duration) ∧
  l.length ≤ maxScenes ∧
  l.Pairwise (fun s1 s2 => s1.endTime ≤ s2.startTime)

/-- A configuration with only the pixelDifference analyzer enabled
(weight 1, threshold 0.3), minSceneDuration 5, maxScenes 15 (the worked
example of the specification). -/
def exCfg : DetectionConfig :=
  { pixelDifference := { enabled := true, threshold := 0.3, weight := 1 },
    audioAmplitude := { enabled := false }, colorHistogram := { enabled := false },
    motionVector := { enabled := false }, faceDetection := { enabled := false },
    minSceneDuration := 5, maxScenes := 15 }

def exB30 : SceneBoundary := { timestamp := 30, confidence := 0.5, method := "pixelDifference" }
def exB315 : SceneBoundary := { timestamp := 31.5, confidence := 0.4, method := "pixelDifference" }
def exB50 : SceneBoundary := { timestamp := 50, confidence := 0.5, method := "pixelDifference" }
def exB100 : SceneBoundary := { timestamp := 100, confidence := 0.5, method := "pixelDifference" }

/-- A job in the clip-generation phase: detect-scenes completed,
generate-clips active, clips as given. -/
def dsStepDone : ProcessingStep :=
  { id := "detect-scenes", progress := 100, status := .completed, endTime := some 1 }

def gcStepActive : ProcessingStep :=
  { id := "generate-clips", progress := 50, status := .active, startTime := some 1 }

def clipPhaseJob (cs : List ClipGenerationJob) : VideoProcessingJob :=
  { id := "job_1", status := .processing, steps := [dsStepDone, gcStepActive],
    scenes := [{ id := "s1", startTime := 0, endTime := 10, duration := 10 }],
    clips := cs, progress := 75 }

def c1ClipFailed : ClipGenerationJob :=
  { id := "clip_s1_tiktok", sceneId := "s1", platform := "tiktok",
    status := .failed, progress := 0 }

def c1ClipDone : ClipGenerationJob :=
  { id := "clip_s1_twitter", sceneId := "s1", platform := "twitter",
    status := .completed, progress := 100 }

def c1WitClip : ClipGenerationJob :=
  { id := "clip_s1_linkedin", sceneId := "s1", platform := "linkedin",
    status := .completed, progress := 100 }

/-- A job holding one in-flight clip task, keyed (as processVideo keys all
jobs) under a job_ id; the clip task itself is identified by a clip_ id. -/
def c2Job : VideoProcessingJob :=
  { id := "job_1", status := .processing, steps := [dsStepDone, gcStepActive],
    scenes := [{ id := "s1", startTime := 0, endTime := 10, duration := 10 }],
    clips := [{ id := "clip_s1_tiktok", sceneId := "s1", platform := "tiktok",
                status := .processing, progress := 0 }],
    progress := 75 }

/-- The error message the worker posts for a failed clip task: its jobId is
the clip id (generateClipsForPlatforms sends jobId = clipJob.id and the
worker echoes data.jobId back). -/
def c2Msg : WorkerMessage :=
  { type := .error, jobId := "clip_s1_tiktok", stepId := some "clip_s1_tiktok",
    errorMsg := "Failed to generate clip: FFmpeg not loaded" }

/-- A job cancelled mid detect-scenes (first step active, second pending,
no scenes yet). -/
def c3Job : VideoProcessingJob :=
  { id := "job_1", status := .processing,
    steps := [{ id := "detect-scenes", progress := 40, status := .active, startTime := some 0 },
              { id := "generate-clips", progress := 0, status := .pending }],
    scenes := [], clips := [], progress := 20 }

/-- A late detect-scenes completion message (empty scene payload) for the
job of c3Job, arriving after cancellation. -/
def c3Msg : WorkerMessage :=
  { type := .complete, jobId := "job_1", stepId := some "detect-scenes",
    completeData := { scenes := some [] } }

/-- A failed job with zero failed steps (reachable because handleStepError
marks the whole job failed even when stepId names no step). -/
def c4Job : VideoProcessingJob :=
  { id := "job_1", status := .failed,
    steps := [{ id := "detect-scenes", progress := 100, status := .completed },
              { id := "generate-clips", progress := 100, status := .completed }],
    scenes := [], clips := [], progress := 37, error := some "boom" }

/-- A failed job with one failed step and one completed step. -/
def c4WitJob : VideoProcessingJob :=
  { id := "job_1", status := .failed,
    steps := [{ id := "detect-scenes", progress := 100, status := .completed },
              { id := "generate-clips", progress := 30, status := .failed,
                startTime := some 2, endTime := some 3, error := some "boom" }],
    scenes := [], clips := [], progress := 50, error := some "boom" }

/-- The stub worker config used for concrete evaluation: medium
sensitivity, all five algorithms enabled, minSceneDuration 5, maxScenes 15
(the defaults the orchestrator sends). -/
def exVPC : VPConfig :=
  { sensitivity := .medium, pdEnabled := true, aaEnabled := true, chEnabled := true,
    mvEnabled := true, fdEnabled := true, minSceneDuration := 5, maxScenes := 15 }

/-- A processing (not failed) job: retry must leave it untouched. -/
def c4ProcJob : VideoProcessingJob :=
  { id := "job_1", status := .processing,
    steps := [{ id := "detect-scenes", progress := 100, status := .completed },
              { id := "generate-clips", progress := 40, status := .active, startTime := some 2 }],
    scenes := [], clips := [], progress := 70 }

/-- A failed job whose detect-scenes step failed (generate-clips still
pending): retry must reset and reactivate the failed step. -/
def c4FailJob : VideoProcessingJob :=
  { id := "job_1", status := .failed,
    steps := [{ id := "detect-scenes", progress := 55, status := .failed,
                startTime := some 2, endTime := some 3, error := some "boom" },
              { id := "generate-clips", progress := 0, status := .pending }],
    scenes := [], clips := [], progress := 27, error := some "boom" }

/-- A failed job whose generate-clips step failed after detect-scenes
completed, with one detected scene: retry must reset and reactivate the
generate-clips step. -/
def c4GcJob : VideoProcessingJob :=
  { id := "job_1", status := .failed,
    steps := [{ id := "detect-scenes", progress := 100, status := .completed },
              { id := "generate-clips", progress := 30, status := .failed,
                startTime := some 2, endTime := some 3, error := some "boom" }],
    scenes := [{ id := "scene_1", startTime := 0, endTime := 10, duration := 10 }],
    clips := [], progress := 50, error := some "boom" }

def exB33 : SceneBoundary := { timestamp := 33, confidence := 0.9, method := "pixelDifference" }

/-! # Part 7: helper lemmas -/

theorem updateFirst_eq_self {p : α → Bool} {f : α → α} :
    ∀ {l : List α}, (∀ a ∈ l, p a = true → f a = a) → updateFirst p f l = l
  | [], _ => rfl
  | a :: t, h => by
      by_cases hp : p a = true
      · simp [updateFirst, hp, h a (List.mem_cons_self a t) hp,
          updateFirst_eq_self (fun b hb hpb => h b (List.mem_cons_of_mem a hb) hpb)]
      · simp [updateFirst, hp,
          updateFirst_eq_self (fun b hb hpb => h b (List.mem_cons_of_mem a hb) hpb)]

theorem mem_updateFirst_of_pred_false {p : α → Bool} {f : α → α} {a : α} :
    ∀ {l : List α}, a ∈ l → p a = false → a ∈ updateFirst p f l
  | b :: t, h, hpa => by
      rcases List.mem_cons.mp h with rfl | ht
      · simp [updateFirst, hpa]
      · by_cases hp : p b = true
        · simp [updateFirst, hp, List.mem_cons_of_mem _ ht]
        · simp only [updateFirst, hp, if_false]
          exact List.mem_cons_of_mem _ (mem_updateFirst_of_pred_false ht hpa)

theorem updateFirst_eq_nil_iff {p : α → Bool} {f : α → α} {l : List α} :
    updateFirst p f l = [] ↔ l = [] := by
  cases l with
  | nil => simp [updateFirst]
  | cons a t => by_cases hp : p a = true <;> simp [updateFirst, hp]

theorem find?_updateFirst {p : α → Bool} {f : α → α}
    (hpf : ∀ a, p (f a) = p a) :
    ∀ (l : List α), (updateFirst p f l).find? p = (l.find? p).map f
  | [] => rfl
  | a :: t => by
      by_cases hp : p a = true
      · simp [updateFirst, hp, List.find?_cons, hpf a]
      · have hpa : p a = false := by simpa using hp
        simp only [updateFirst, hpa, Bool.false_eq_true, if_false]
        rw [List.find?_cons_of_neg _ (by simp [hpa]), List.find?_cons_of_neg _ (by simp [hpa])]
        exact find?_updateFirst hpf t

/-! # Part 8: the claims -/

/-- C2 (amended): an error (or any other) message whose jobId is not a key
of the jobs map is discarded without being applied.  Clip-task messages are
exactly of this kind: generateClipsForAllPlatforms and
generateClipsForPlatforms send jobId = clipJob.id (a clip_ id), while the
map holds jobs under their job_ ids, so a clip error marks NO clip failed
and leaves the job, its steps and its status unchanged (in particular the
job does not become failed). -/
theorem c2_unknown_job_message_discarded (jobs : List VideoProcessingJob)
    (m : WorkerMessage) (now : Nat) (w : Bool)
    (h : ∀ j ∈ jobs, (j.id == m.jobId) = false) :
    handleWorkerMessage jobs m now w = jobs := by
  unfold handleWorkerMessage
  exact updateFirst_eq_self (fun j hj hpj => absurd hpj (by simp [h j hj]))

/-- Witness for C2: the concrete clip error message of c2Msg leaves the
concrete one-job state untouched. -/
theorem c2_unknown_job_message_discarded_witness :
    handleWorkerMessage [c2Job] c2Msg 7 true = [c2Job] :=
  c2_unknown_job_message_discarded [c2Job] c2Msg 7 true (by
    intro j hj
    rw [List.mem_singleton] at hj
    subst hj
    decide)

/-- C2 counterexample to the claim as stated: after the error message for
the single clip task arrives, that clip is NOT marked failed (it stays
processing); the claim asserts it would be marked failed. -/
theorem c2_clip_error_leaves_clip_unfailed :
    (handleWorkerMessage [c2Job] c2Msg 7 true).map (fun j => j.clips.map (fun c => c.status))
      = [[ClipStatus.processing]] ∧
    (handleWorkerMessage [c2Job] c2Msg 7 true).map (fun j => j.status)
      = [JobStatus.processing] := by
  constructor <;> simp [handleWorkerMessage, updateFirst, c2Job, c2Msg]

/-- C3: the code has no cancellation fence.  A job cancelled during
detect-scenes is set to cancelled, but a late completion message for that
step is applied in full: the step is marked completed, generate-clips is
started, and (here, with no scenes) the job transitions cancelled ->
completed.  The claim (and the specification) require the late result to be
discarded after a status check; no handler checks the status. -/
theorem c3_cancelled_job_completed_by_late_message :
    ((cancelJob [c3Job] "job_1" 1).map (fun j => j.status)) = [JobStatus.cancelled] ∧
    ((handleWorkerMessage (cancelJob [c3Job] "job_1" 1) c3Msg 2 true).map (fun j => j.status))
      = [JobStatus.completed] := by
  constructor
  · simp [cancelJob, updateFirst, c3Job]
  · simp [handleWorkerMessage, cancelJob, c3Job, c3Msg, updateFirst, handleStepComplete,
      markStepCompleted, applyScenes, applyClipPayload, clipsAfterPayload, checkAllClipsComplete,
      strStartsWith, startNextStep, executeStep, generateClipsForAllPlatforms, handleStepError,
      sceneValid, completeClipEntry]

/-- C4 counterexample: a failed job with ZERO failed steps (reachable, since
handleStepError fails the job even when its stepId matches no step).  The
claim says retryJob leaves such a job entirely unchanged; in the code the
guard is job.status === failed, not the failed-step count, so the job is
reset to processing, its progress to 0 and its error cleared. -/
theorem c4_retry_mutates_job_with_zero_failed_steps :
    (c4Job.steps.all (fun s => !(s.status == .failed))) = true ∧
    (retryJob [c4Job] "job_1" 9 true).map (fun j => j.status) = [JobStatus.processing] ∧
    retryJob [c4Job] "job_1" 9 true ≠ [c4Job] := by
  have hmap : (retryJob [c4Job] "job_1" 9 true).map (fun j => j.status)
      = [JobStatus.processing] := by
    simp [retryJob, retryJobOne, updateFirst, c4Job, resetFailedStep, startNextStep,
      executeStep, generateClipsForAllPlatforms, handleStepError]
  refine ⟨by decide, hmap, ?_⟩
  intro h
  rw [h] at hmap
  simp [c4Job] at hmap

/-- C1 counterexample to the claim as stated: in the job clipPhaseJob
[c1ClipFailed, c1ClipDone] every clip is terminal (one failed, one
completed), yet the completion message for the second clip does NOT mark
generate-clips completed (the code requires every clip to be completed, not
merely terminal): the step stays active and the job stays processing. -/
theorem c1_failed_clip_blocks_step_and_job_completion :
    ((clipPhaseJob [c1ClipFailed, c1ClipDone]).clips.all
        (fun c => c.status == .completed || c.status == .failed)) = true ∧
    (((handleStepComplete (clipPhaseJob [c1ClipFailed, c1ClipDone]) (some "clip_s1_twitter")
        {} 5 true).steps.find? (fun s => s.id == "generate-clips")).map (fun s => s.status))
      = some .active ∧
    (handleStepComplete (clipPhaseJob [c1ClipFailed, c1ClipDone]) (some "clip_s1_twitter")
        {} 5 true).status = .processing := by
  refine ⟨by decide, ?_, ?_⟩ <;>
    simp [handleStepComplete, markStepCompleted, applyScenes, applyClipPayload, clipsAfterPayload,
      checkAllClipsComplete, strStartsWith, startNextStep, executeStep, handleStepError,
      generateClipsForAllPlatforms, clipPhaseJob, dsStepDone, gcStepActive, c1ClipFailed,
      c1ClipDone, updateFirst]

/-- C6: the merge law.  For two weighted boundaries already in timestamp
order and less than 2 seconds apart, the merge scan of
combineDetectionResults retains exactly one boundary: the more confident of
the two (the first on ties), whose confidence is the maximum of both. -/
theorem c6_merge_law (b1 b2 : SceneBoundary)
    (hle : b1.timestamp ≤ b2.timestamp) (hwin : b2.timestamp - b1.timestamp < 2) :
    mergeBoundaries [b1, b2] = [if b1.confidence < b2.confidence then b2 else b1] ∧
    (mergeBoundaries [b1, b2]).map (fun b => b.confidence) = [max b1.confidence b2.confidence] := by
  have habs : |b2.timestamp - b1.timestamp| < 2 := by
    rw [abs_of_nonneg (by linarith)]; exact hwin
  have hres : mergeBoundaries [b1, b2] = [if b1.confidence < b2.confidence then b2 else b1] := by
    simp only [mergeBoundaries, List.foldl]
    simp [mergeInto, habs]
    split <;> rfl
  refine ⟨hres, ?_⟩
  rw [hres]
  by_cases hc : b1.confidence < b2.confidence
  · simp [hc, max_eq_right (le_of_lt hc)]
  · simp [hc, max_eq_left (not_lt.mp hc)]

/-- Witness for C6 at the worked example of the specification: raw
boundaries at t = 30 (confidence 0.5) and t = 31.5 (confidence 0.4) merge to
the single boundary at t = 30. -/
theorem c6_merge_law_witness :
    mergeBoundaries [exB30, exB315]
        = [if exB30.confidence < exB315.confidence then exB315 else exB30] ∧
    (mergeBoundaries [exB30, exB315]).map (fun b => b.confidence)
      = [max exB30.confidence exB315.confidence] :=
  c6_merge_law exB30 exB315 (by norm_num [exB30, exB315]) (by norm_num [exB30, exB315])

/-- C8 counterexample: at viralPotential = 0 the JavaScript || fallback
makes the engagement multiplier 0.5, so the code returns 30 where the
formula of the claim gives clamp(30 * 0.7, 5, min(100, 60)) = 21. -/
theorem c8_zero_viral_potential_deviates :
    calculateOptimalDuration { duration := 100, viralPotential := 0 }
        { maxDuration := 60, preferredLength := some 30 } = 30 ∧
    optimalDurationClaim 100 30 60 0 = 21 := by
  constructor <;>
    norm_num [calculateOptimalDuration, optimalDurationClaim, clampQ,
      effectiveViralPotential, min_def, max_def]

/-- C8 (amended): for nonzero viralPotential and a present nonzero
preferredLength, calculateOptimalDuration computes exactly the claimed
clamp(preferredLength * (0.7 + 0.6 * viralPotential), 5,
min(scene.duration, platform.maxDuration)); zero (or absent) values fall
back to 0.5 and maxDuration respectively. -/
theorem c8_optimal_duration_formula (dur vp maxD pref : ℚ)
    (hvp : vp ≠ 0) (hpref : pref ≠ 0) :
    calculateOptimalDuration { duration := dur, viralPotential := vp }
        { maxDuration := maxD, preferredLength := some pref }
      = optimalDurationClaim dur pref maxD vp := by
  have h : pref * (0.7 + vp * 0.6) = pref * (0.7 + 0.6 * vp) := by ring
  simp [calculateOptimalDuration, optimalDurationClaim, clampQ, effectiveViralPotential,
    hvp, hpref, h, max_comm]

/-- Witness for C8 at the worked example of the specification:
scene.duration = 15, preferredLength = 30, maxDuration = 60,
viralPotential = 0.8 give exactly 15 seconds. -/
theorem c8_optimal_duration_formula_witness :
    calculateOptimalDuration { duration := 15, viralPotential := 0.8 }
        { maxDuration := 60, preferredLength := some 30 }
      = optimalDurationClaim 15 30 60 0.8 ∧
    optimalDurationClaim 15 30 60 0.8 = 15 :=
  ⟨c8_optimal_duration_formula 15 0.8 60 30 (by norm_num) (by norm_num),
   by norm_num [optimalDurationClaim, clampQ, min_def, max_def]⟩

/-- Every scene produced by the scene loop has its narrativeImportance
computed by the band function at position startTime / endTime of the scene
itself. -/
theorem buildScenes_narr (D minD : ℚ) :
    ∀ (fuel i : Nat) (l : List SceneBoundary) (s : DetectedScene),
      s ∈ buildScenes D minD fuel i l →
      s.narrativeImportance = narrBand (s.startTime / s.endTime)
  | _, _, [], s, hs => by simp [buildScenes] at hs
  | _, _, [_], s, hs => by simp [buildScenes] at hs
  | 0, _, _ :: _ :: _, s, hs => by simp [buildScenes] at hs
  | fuel + 1, i, a :: b :: t, s, hs => by
      simp only [buildScenes] at hs
      by_cases hd : minD ≤ (if b.timestamp = 0 then D else b.timestamp) - a.timestamp
      · rw [if_pos hd] at hs
        rcases List.mem_cons.mp hs with rfl | hmem
        · rfl
        · exact buildScenes_narr D minD fuel (i + 1) (b :: t) s hmem
      · rw [if_neg hd] at hs
        exact buildScenes_narr D minD fuel (i + 1) (b :: t) s hs

/-- C9 (amended): with the contextual post-pass disabled, every scene
returned by the detector carries narrativeImportance = narrBand of its
position startTime / endTime, the scene's OWN end time standing in for the
total duration (the source comments it as approximate total duration). -/
theorem c9_narrative_importance_band (cfg : DetectionConfig) (D : ℚ)
    (pd aa ch mv fd : List SceneBoundary) (llama : Bool) (s : DetectedScene)
    (hpc : cfg.preserveContext = false) (hmn : cfg.maintainNarrativeFlow = false)
    (hs : s ∈ advDetectScenes cfg D pd aa ch mv fd llama) :
    s.narrativeImportance = narrBand (s.startTime / s.endTime) := by
  simp only [advDetectScenes, hpc, hmn, Bool.or_self, if_neg] at hs
  exact buildScenes_narr D cfg.minSceneDuration cfg.maxScenes 0 _ s hs

/-- Witness for C9: the single scene produced on a 100 second video with no
analyzer boundaries follows the band law. -/
theorem c9_narrative_importance_band_witness :
    (⟨"scene_1", 0, 100, 100, 1, 0.9, 1, ["unknown"], .low, 0.5⟩
        : DetectedScene).narrativeImportance
      = narrBand ((⟨"scene_1", 0, 100, 100, 1, 0.9, 1, ["unknown"], .low, 0.5⟩
          : DetectedScene).startTime
        / (⟨"scene_1", 0, 100, 100, 1, 0.9, 1, ["unknown"], .low, 0.5⟩
          : DetectedScene).endTime) :=
  c9_narrative_importance_band exCfg 100 [] [] [] [] [] false _ rfl rfl (by
    norm_num [advDetectScenes, exCfg, combineDetectionResults, weightedBoundaries,
      mergeBoundaries, mergeInto, refineBoundaries, refineFilter, startBoundary, endBoundary,
      buildScenes, createSceneObject, calculateNarrativeImportance, calculateViralPotential,
      speakersOf, motionLevelOf, avgAmplitudeOf, List.insertionSort, effectiveWeight]
    exact ⟨by decide, by simp⟩)

/-- C9 counterexample to the claim as stated: for the scene from 50 to 100
of a 1000 second video, the code computes position 50 / 100 = 0.5 (scene end
time as denominator) giving 0.8, while the claim formula uses the video
duration, position 50 / 1000 = 0.05, giving 0.9. -/
theorem c9_position_uses_scene_end_not_video_duration :
    (advDetectScenes exCfg 1000 [exB50, exB100] [] [] [] [] false).map
        (fun s => (s.startTime, s.endTime, s.narrativeImportance))
      = [(0, 50, 0.9), (50, 100, 0.8), (100, 1000, 0.5)] ∧
    narrativeImportanceClaim 50 1000 = 0.9 := by
  constructor
  · norm_num [advDetectScenes, exCfg, exB50, exB100, combineDetectionResults,
      weightedBoundaries, mergeBoundaries, mergeInto, refineBoundaries, refineFilter,
      startBoundary, endBoundary, buildScenes, createSceneObject,
      calculateNarrativeImportance, calculateViralPotential, speakersOf, motionLevelOf,
      avgAmplitudeOf, List.insertionSort, List.orderedInsert, effectiveWeight]
  · norm_num [narrativeImportanceClaim]

/-- The scene loop of the stub worker throws as soon as one iteration
passes the minimum-duration check. -/
theorem vpLoop_error_of_pass (duration minDur : ℚ) (n : ℤ) (rand : Nat → ℚ) :
    ∀ l : List Nat, (∃ i ∈ l, minDur ≤ vpCandidateDuration duration minDur n (rand i) i) →
      vpLoop duration minDur n rand l = .error vpBoundaryError
  | [], h => by simp at h
  | i :: rest, h => by
      by_cases hc : vpCandidateDuration duration minDur n (rand i) i < minDur
      · rcases h with ⟨j, hj, hpass⟩
        rcases List.mem_cons.mp hj with rfl | hjr
        · exact absurd hc (not_lt.mpr hpass)
        · simp only [vpLoop, if_pos hc]
          exact vpLoop_error_of_pass duration minDur n rand rest ⟨j, hjr, hpass⟩
      · simp only [vpLoop, if_neg hc]

/-- C10: the stub detector never returns a non-empty scene list: an ok
result is always the empty list, and whenever some loop iteration passes the
minimum-duration check (under a valid positive duration) the function throws
the boundary ReferenceError wrapped as a Failed to detect scenes error. -/
theorem c10_stub_detector_never_produces_scenes (c : VPConfig) (md : Option ℚ)
    (rand : Nat → ℚ) (i : Nat)
    (hdur : 0 < vpEffDuration md)
    (hi : i ∈ List.range (vpNumScenes c (vpEffDuration md)).toNat)
    (hp : c.minSceneDuration ≤ vpCandidateDuration (vpEffDuration md) c.minSceneDuration
        (vpNumScenes c (vpEffDuration md)) (rand i) i) :
    (∀ (c' : VPConfig) (md' : Option ℚ) (rand' : Nat → ℚ) (l : List VPScene),
        vpDetectScenes c' md' rand' = .ok l → l = []) ∧
    vpDetectScenes c md rand = .error vpBoundaryError := by
  constructor
  · intro c' md' rand' l hok
    simp only [vpDetectScenes] at hok
    by_cases hd : vpEffDuration md' ≤ 0
    · rw [if_pos hd] at hok; cases hok
    · rw [if_neg hd] at hok
      rcases h2 : vpLoop (vpEffDuration md') c'.minSceneDuration
          (vpNumScenes c' (vpEffDuration md')) rand'
          (List.range (vpNumScenes c' (vpEffDuration md')).toNat) with e | u
      · rw [h2] at hok
        cases hok
      · rw [h2] at hok
        simpa using hok.symm
  · simp only [vpDetectScenes]
    rw [if_neg (not_le.mpr hdur)]
    rw [vpLoop_error_of_pass _ _ _ _ _ ⟨i, hi, hp⟩]

/-- Witness for C10 at the orchestrator default configuration on a 300
second video: iteration 0 passes the check (candidate length 15), so the
detector throws. -/
theorem c10_stub_detector_never_produces_scenes_witness :
    (∀ (c' : VPConfig) (md' : Option ℚ) (rand' : Nat → ℚ) (l : List VPScene),
        vpDetectScenes c' md' rand' = .ok l → l = []) ∧
    vpDetectScenes exVPC (some 300) (fun _ => 1) = .error vpBoundaryError :=
  c10_stub_detector_never_produces_scenes exVPC (some 300) (fun _ => 1) 0
    (by norm_num [vpEffDuration])
    (by
      have h24 : vpNumScenes exVPC (vpEffDuration (some 300)) = 24 := by
        norm_num [vpNumScenes, vpNumScenesBase, vpEnabledCount, vpEffDuration, exVPC,
          min_def, max_def]
      rw [h24]
      decide)
    (by
      have h24 : vpNumScenes exVPC (vpEffDuration (some 300)) = 24 := by
        norm_num [vpNumScenes, vpNumScenesBase, vpEnabledCount, vpEffDuration, exVPC,
          min_def, max_def]
      rw [h24]
      norm_num [vpCandidateDuration, vpEffDuration, exVPC, min_def, max_def])

/-- In the merge scan, boundaries spaced at least the 2 second window apart
are all appended and none merged. -/
theorem foldl_mergeInto_spaced :
    ∀ (l : List SceneBoundary) (acc : List SceneBoundary) (lastB : SceneBoundary),
      acc.getLast? = some lastB →
      List.Chain (fun a b => a.timestamp + 2 ≤ b.timestamp) lastB l →
      l.foldl mergeInto acc = acc ++ l
  | [], acc, lastB, _, _ => by simp
  | b :: t, acc, lastB, hlast, hch => by
      cases hch with
      | cons hab hch' =>
        have hge : ¬ |b.timestamp - lastB.timestamp| < 2 := by
          rw [abs_of_nonneg (by linarith)]
          linarith
        have h1 : mergeInto acc b = acc ++ [b] := by
          simp [mergeInto, hlast, hge]
        rw [List.foldl_cons, h1,
          foldl_mergeInto_spaced t (acc ++ [b]) b (by simp) hch']
        simp

/-- mergeBoundaries is the identity on lists whose consecutive timestamps
are at least 2 seconds apart. -/
theorem mergeBoundaries_spaced (l : List SceneBoundary)
    (h : l.Chain' (fun a b => a.timestamp + 2 ≤ b.timestamp)) :
    mergeBoundaries l = l := by
  cases l with
  | nil => rfl
  | cons b t =>
      have hch : List.Chain (fun a b => a.timestamp + 2 ≤ b.timestamp) b t := h
      unfold mergeBoundaries
      rw [List.foldl_cons]
      have h1 : mergeInto [] b = [b] := by simp [mergeInto]
      rw [h1, foldl_mergeInto_spaced t [b] b (by simp) hch]
      simp

/-- C7 (amended): with a single analyzer contributing (the others empty, as
detectScenes arranges for disabled analyzers) and a nonzero configured
weight, the fusion output equals exactly that analyzer's boundary list with
confidences scaled by the weight, PROVIDED consecutive raw boundaries are at
least 2 seconds apart; closer boundaries are collapsed by the merge scan
(see the counterexample), and a zero weight falls back to 1. -/
theorem c7_weight_isolation_spaced (cfg : DetectionConfig) (pd : List SceneBoundary)
    (hw : cfg.pixelDifference.weight ≠ 0)
    (hgap : pd.Chain' (fun a b => a.timestamp + 2 ≤ b.timestamp)) :
    combineDetectionResults cfg pd [] [] [] []
      = pd.map (fun b => { b with confidence := b.confidence * cfg.pixelDifference.weight }) := by
  have hfeq : (fun b : SceneBoundary =>
        { b with confidence := b.confidence * effectiveWeight cfg.pixelDifference.weight })
      = (fun b : SceneBoundary =>
        { b with confidence := b.confidence * cfg.pixelDifference.weight }) := by
    funext b
    simp [effectiveWeight, hw]
  have hmap : List.Chain' (fun a b : SceneBoundary => a.timestamp + 2 ≤ b.timestamp)
      (pd.map (fun b => { b with confidence := b.confidence * cfg.pixelDifference.weight })) :=
    (List.chain'_map _).mpr hgap
  haveI : IsTrans SceneBoundary (fun a b => a.timestamp ≤ b.timestamp) :=
    ⟨fun _ _ _ h1 h2 => le_trans h1 h2⟩
  have hsorted : List.Sorted (fun a b : SceneBoundary => a.timestamp ≤ b.timestamp)
      (pd.map (fun b => { b with confidence := b.confidence * cfg.pixelDifference.weight })) :=
    List.chain'_iff_pairwise.mp (hmap.imp (fun a b hh => by linarith))
  unfold combineDetectionResults weightedBoundaries
  rw [hfeq]
  simp only [List.map_nil, List.append_nil]
  rw [List.Sorted.insertionSort_eq hsorted, mergeBoundaries_spaced _ hmap]

/-- Witness for C7: two pixel-difference boundaries 3 seconds apart survive
fusion exactly, scaled by the configured weight 1. -/
theorem c7_weight_isolation_spaced_witness :
    combineDetectionResults exCfg [exB30, exB33] [] [] [] []
      = [exB30, exB33].map (fun b =>
          { b with confidence := b.confidence * exCfg.pixelDifference.weight }) :=
  c7_weight_isolation_spaced exCfg [exB30, exB33]
    (by norm_num [exCfg])
    (by
      simp only [List.chain'_cons, List.chain'_singleton, and_true]
      norm_num [exB30, exB33])

/-- C7 counterexample to the claim as stated: a single enabled analyzer with
raw boundaries at t = 30 and t = 31.5 (less than 2 seconds apart) does NOT
come out of fusion unchanged: the merge scan collapses the pair to one
boundary, so the output is not the raw list scaled by the weight. -/
theorem c7_close_boundaries_collapse_for_single_analyzer :
    (combineDetectionResults exCfg [exB30, exB315] [] [] [] []).length = 1 ∧
    combineDetectionResults exCfg [exB30, exB315] [] [] [] []
      ≠ [exB30, exB315].map (fun b =>
          { b with confidence := b.confidence * exCfg.pixelDifference.weight }) := by
  have hlen : (combineDetectionResults exCfg [exB30, exB315] [] [] [] []).length = 1 := by
    norm_num [combineDetectionResults, exCfg, exB30, exB315, weightedBoundaries,
      mergeBoundaries, mergeInto, List.insertionSort, List.orderedInsert, effectiveWeight]
    rw [if_pos (by rw [abs_of_nonneg (by norm_num : (0:ℚ) ≤ 3 / 2)]; norm_num)]
    simp
  refine ⟨hlen, fun h => ?_⟩
  rw [h] at hlen
  simp at hlen

theorem createSceneObject_fields (sid : String) (st en : ℚ) (b : SceneBoundary) :
    (createSceneObject sid st en b).startTime = st ∧
    (createSceneObject sid st en b).endTime = en ∧
    (createSceneObject sid st en b).duration = en - st :=
  ⟨rfl, rfl, rfl⟩

theorem mem_mergeInto {x : SceneBoundary} {acc : List SceneBoundary} {b : SceneBoundary}
    (h : x ∈ mergeInto acc b) : x ∈ acc ∨ x = b := by
  unfold mergeInto at h
  split at h
  · simpa using h
  · split at h
    · split at h
      · rcases List.mem_append.mp h with hx | hx
        · exact Or.inl ((List.dropLast_sublist acc).subset hx)
        · exact Or.inr (List.mem_singleton.mp hx)
      · exact Or.inl h
    · rcases List.mem_append.mp h with hx | hx
      · exact Or.inl hx
      · exact Or.inr (List.mem_singleton.mp hx)

theorem mem_foldl_mergeInto {x : SceneBoundary} :
    ∀ (l acc : List SceneBoundary), x ∈ l.foldl mergeInto acc → x ∈ acc ∨ x ∈ l
  | [], _, h => Or.inl h
  | b :: t, acc, h => by
      rcases mem_foldl_mergeInto t (mergeInto acc b) h with h1 | h1
      · rcases mem_mergeInto h1 with h2 | h2
        · exact Or.inl h2
        · exact Or.inr (by simp [h2])
      · exact Or.inr (List.mem_cons_of_mem _ h1)

/-- Every boundary surviving fusion carries the timestamp of some input
boundary; in particular fused timestamps respect any bound the inputs
respect. -/
theorem combine_timestamp_le (cfg : DetectionConfig) (D : ℚ)
    (pd aa ch mv fd : List SceneBoundary)
    (h : ∀ b ∈ pd ++ aa ++ ch ++ mv ++ fd, b.timestamp ≤ D) :
    ∀ x ∈ combineDetectionResults cfg pd aa ch mv fd, x.timestamp ≤ D := by
  intro x hx
  unfold combineDetectionResults mergeBoundaries at hx
  rcases mem_foldl_mergeInto _ _ hx with h1 | h1
  · simp at h1
  · have h2 : x ∈ weightedBoundaries cfg pd aa ch mv fd :=
      (List.mem_insertionSort _).mp h1
    unfold weightedBoundaries at h2
    simp only [List.mem_append, List.mem_map] at h2
    simp only [List.mem_append] at h
    rcases h2 with (((⟨b, hb, rfl⟩ | ⟨b, hb, rfl⟩) | ⟨b, hb, rfl⟩) | ⟨b, hb, rfl⟩) | ⟨b, hb, rfl⟩
    · exact h b (by tauto)
    · exact h b (by tauto)
    · exact h b (by tauto)
    · exact h b (by tauto)
    · exact h b (by tauto)

/-- The refinement filter keeps only boundaries at least minDuration after
the previously kept one. -/
theorem chain_refineFilter (minD : ℚ) :
    ∀ (l : List SceneBoundary) (lastB : SceneBoundary),
      List.Chain (fun a b => a.timestamp + minD ≤ b.timestamp) lastB (refineFilter minD lastB l)
  | [], _ => List.Chain.nil
  | b :: rest, lastB => by
      unfold refineFilter
      by_cases hc : minD ≤ b.timestamp - lastB.timestamp
      · rw [if_pos hc]
        exact List.Chain.cons (by linarith) (chain_refineFilter minD rest b)
      · rw [if_neg hc]
        exact chain_refineFilter minD rest lastB

theorem mem_refineFilter (minD : ℚ) :
    ∀ (l : List SceneBoundary) (lastB : SceneBoundary) (x : SceneBoundary),
      x ∈ refineFilter minD lastB l → x ∈ l
  | [], _, x, h => by simp [refineFilter] at h
  | b :: rest, lastB, x, h => by
      unfold refineFilter at h
      by_cases hc : minD ≤ b.timestamp - lastB.timestamp
      · rw [if_pos hc] at h
        rcases List.mem_cons.mp h with rfl | h2
        · exact List.mem_cons_self _ _
        · exact List.mem_cons_of_mem _ (mem_refineFilter minD rest b x h2)
      · rw [if_neg hc] at h
        exact List.mem_cons_of_mem _ (mem_refineFilter minD rest lastB x h)

/-- The scene loop invariant: walking a boundary list whose consecutive
gaps are at least minD (minD positive) from a nonnegative start, all
produced scenes are well formed, at most fuel many, adjacent and
non-overlapping, and the first scene starts at the first boundary. -/
theorem buildScenes_invariant (D minD : ℚ) (hmin : 0 < minD) :
    ∀ (t : List SceneBoundary) (fuel i : Nat) (a : SceneBoundary),
      0 ≤ a.timestamp →
      List.Chain (fun x y => x.timestamp + minD ≤ y.timestamp) a t →
      (∀ x ∈ a :: t, x.timestamp ≤ D) →
      (∀ s ∈ buildScenes D minD fuel i (a :: t),
          0 ≤ s.startTime ∧ s.startTime < s.endTime ∧ s.endTime ≤ D ∧
          s.duration = s.endTime - s.startTime ∧ minD ≤ s.duration) ∧
      (buildScenes D minD fuel i (a :: t)).length ≤ fuel ∧
      List.Chain' (fun s1 s2 => s1.endTime ≤ s2.startTime) (buildScenes D minD fuel i (a :: t)) ∧
      (∀ s ∈ (buildScenes D minD fuel i (a :: t)).head?, s.startTime = a.timestamp)
  | [], fuel, i, a, _, _, _ => by
      simp [buildScenes]
  | b :: t', fuel, i, a, ha0, hch, hbound => by
      cases hch with
      | cons hab hch' =>
        cases fuel with
        | zero => simp [buildScenes]
        | succ f =>
          have hb0 : ¬ b.timestamp = 0 := by
            intro h0
            rw [h0] at hab
            linarith
          have hbpos : 0 ≤ b.timestamp := by linarith
          obtain ⟨ihwf, ihlen, ihch, ihhead⟩ :=
            buildScenes_invariant D minD hmin t' f (i + 1) b hbpos hch'
              (fun x hx => hbound x (List.mem_cons_of_mem _ hx))
          have heq : buildScenes D minD (f + 1) i (a :: b :: t')
              = createSceneObject ("scene_" ++ toString (i + 1)) a.timestamp b.timestamp a
                :: buildScenes D minD f (i + 1) (b :: t') := by
            simp only [buildScenes]
            rw [if_neg hb0, if_pos (by linarith : minD ≤ b.timestamp - a.timestamp)]
          rw [heq]
          refine ⟨?_, ?_, ?_, ?_⟩
          · intro s hs
            rcases List.mem_cons.mp hs with rfl | hs'
            · obtain ⟨hf1, hf2, hf3⟩ := createSceneObject_fields
                ("scene_" ++ toString (i + 1)) a.timestamp b.timestamp a
              refine ⟨?_, ?_, ?_, ?_, ?_⟩
              · rw [hf1]; exact ha0
              · rw [hf1, hf2]; linarith
              · rw [hf2]; exact hbound b (by simp)
              · rw [hf3, hf2, hf1]
              · rw [hf3]; linarith
            · exact ihwf s hs'
          · simpa using Nat.succ_le_succ ihlen
          · refine List.chain'_cons'.mpr ⟨?_, ihch⟩
            intro y hy
            rw [(createSceneObject_fields _ _ _ _).2.1, ihhead y hy]
          · intro s hs
            simp only [List.head?_cons, Option.mem_def, Option.some.injEq] at hs
            rw [← hs]
            exact (createSceneObject_fields _ _ _ _).1

/-- The contextual merge pass preserves scene well-formedness and
adjacency, never lengthens the list, and keeps the start time of the first
scene. -/
theorem mergeScenesPass_preserves (D minD : ℚ) :
    ∀ (l : List DetectedScene),
      (∀ s ∈ l, 0 ≤ s.startTime ∧ s.startTime < s.endTime ∧ s.endTime ≤ D ∧
          s.duration = s.endTime - s.startTime ∧ minD ≤ s.duration) →
      List.Chain' (fun s1 s2 => s1.endTime ≤ s2.startTime) l →
      (∀ s ∈ mergeScenesPass l,
          0 ≤ s.startTime ∧ s.startTime < s.endTime ∧ s.endTime ≤ D ∧
          s.duration = s.endTime - s.startTime ∧ minD ≤ s.duration) ∧
      (mergeScenesPass l).length ≤ l.length ∧
      List.Chain' (fun s1 s2 => s1.endTime ≤ s2.startTime) (mergeScenesPass l) ∧
      (∀ s ∈ (mergeScenesPass l).head?, ∀ x ∈ l.head?, s.startTime = x.startTime)
  | [], hwf, hch => by
      simp only [mergeScenesPass]
      exact ⟨hwf, le_refl _, hch, by simp⟩
  | [x], hwf, hch => by
      simp only [mergeScenesPass]
      refine ⟨hwf, le_refl _, hch, ?_⟩
      intro s hs x' hx'
      simp only [List.head?_cons, Option.mem_def, Option.some.injEq] at hs hx'
      rw [← hs, ← hx']
  | a :: b :: t, hwf, hch => by
      have hab : a.endTime ≤ b.startTime := (List.chain'_cons.mp hch).1
      have hchbt : List.Chain' (fun s1 s2 => s1.endTime ≤ s2.startTime) (b :: t) :=
        (List.chain'_cons.mp hch).2
      have hwa := hwf a (List.mem_cons_self _ _)
      have hwb := hwf b (List.mem_cons_of_mem _ (List.mem_cons_self _ _))
      simp only [mergeScenesPass]
      by_cases hm : shouldMergeForContext a b = true
      · rw [if_pos hm]
        have hwfm : ∀ s ∈
            ({ a with endTime := b.endTime, duration := b.endTime - a.startTime } :: t),
            0 ≤ s.startTime ∧ s.startTime < s.endTime ∧ s.endTime ≤ D ∧
              s.duration = s.endTime - s.startTime ∧ minD ≤ s.duration := by
          intro s hs
          rcases List.mem_cons.mp hs with rfl | hs'
          · refine ⟨hwa.1, ?_, hwb.2.2.1, rfl, ?_⟩
            · show a.startTime < b.endTime
              linarith [hwa.2.1, hwb.2.1]
            · show minD ≤ b.endTime - a.startTime
              linarith [hwa.2.2.2.2, hwa.2.2.2.1, hwb.2.1]
          · exact hwf s (List.mem_cons_of_mem _ (List.mem_cons_of_mem _ hs'))
        have hchm : List.Chain' (fun s1 s2 => s1.endTime ≤ s2.startTime)
            ({ a with endTime := b.endTime, duration := b.endTime - a.startTime } :: t) := by
          refine List.chain'_cons'.mpr ⟨?_, (List.chain'_cons'.mp hchbt).2⟩
          intro y hy
          exact (List.chain'_cons'.mp hchbt).1 y hy
        obtain ⟨ih1, ih2, ih3, ih4⟩ := mergeScenesPass_preserves D minD _ hwfm hchm
        refine ⟨ih1, le_trans ih2 (by simp), ih3, ?_⟩
        intro s hs x hx
        simp only [List.head?_cons, Option.mem_def, Option.some.injEq] at hx
        have hsa := ih4 s hs
          ({ a with endTime := b.endTime, duration := b.endTime - a.startTime }) (by simp)
        subst hx
        rw [hsa]
      · rw [if_neg hm]
        obtain ⟨ih1, ih2, ih3, ih4⟩ := mergeScenesPass_preserves D minD (b :: t)
          (fun s hs => hwf s (List.mem_cons_of_mem _ hs)) hchbt
        refine ⟨?_, by simpa using Nat.succ_le_succ ih2, ?_, ?_⟩
        · intro s hs
          rcases List.mem_cons.mp hs with rfl | hs'
          · exact hwa
          · exact ih1 s hs'
        · refine List.chain'_cons'.mpr ⟨?_, ih3⟩
          intro y hy
          have hyb := ih4 y hy b (by simp)
          rw [hyb]
          exact hab
        · intro s hs x hx
          simp only [List.head?_cons, Option.mem_def, Option.some.injEq] at hs hx
          rw [← hs, ← hx]
  termination_by l _ _ => l.length

/-- With every scene nondegenerate, adjacency propagates: the head's end is
at or before every later scene's start. -/
theorem chain'_endTime_head_le :
    ∀ (t : List DetectedScene) (a : DetectedScene),
      (∀ s ∈ t, s.startTime < s.endTime) →
      List.Chain' (fun s1 s2 => s1.endTime ≤ s2.startTime) (a :: t) →
      ∀ b ∈ t, a.endTime ≤ b.startTime
  | [], _, _, _, b, hb => by simp at hb
  | c :: t', a, hwf, hch, b, hb => by
      have h1 : a.endTime ≤ c.startTime := (List.chain'_cons.mp hch).1
      have h2 : List.Chain' (fun s1 s2 => s1.endTime ≤ s2.startTime) (c :: t') :=
        (List.chain'_cons.mp hch).2
      rcases List.mem_cons.mp hb with rfl | hb'
      · exact h1
      · have h3 := chain'_endTime_head_le t' c
          (fun s hs => hwf s (List.mem_cons_of_mem _ hs)) h2 b hb'
        have hc : c.startTime < c.endTime := hwf c (List.mem_cons_self _ _)
        linarith

/-- Adjacent non-overlap of nondegenerate scenes gives pairwise
non-overlap. -/
theorem chain'_endTime_pairwise :
    ∀ (l : List DetectedScene),
      (∀ s ∈ l, s.startTime < s.endTime) →
      List.Chain' (fun s1 s2 => s1.endTime ≤ s2.startTime) l →
      l.Pairwise (fun s1 s2 => s1.endTime ≤ s2.startTime)
  | [], _, _ => List.Pairwise.nil
  | a :: t, hwf, hch =>
      List.Pairwise.cons
        (chain'_endTime_head_le t a (fun s hs => hwf s (List.mem_cons_of_mem _ hs)) hch)
        (chain'_endTime_pairwise t (fun s hs => hwf s (List.mem_cons_of_mem _ hs))
          ((List.chain'_cons'.mp hch).2))

/-- Refinement plus scene materialization establishes the scene invariant
for any combined boundary list bounded by the video duration. -/
theorem refined_scene_invariant (minD D : ℚ) (hmin : 0 < minD) (hD : 0 < D)
    (combined : List SceneBoundary) (maxS : Nat)
    (hcomb : ∀ x ∈ combined, x.timestamp ≤ D) :
    (∀ s ∈ buildScenes D minD maxS 0 (refineBoundaries combined minD D),
        0 ≤ s.startTime ∧ s.startTime < s.endTime ∧ s.endTime ≤ D ∧
        s.duration = s.endTime - s.startTime ∧ minD ≤ s.duration) ∧
    (buildScenes D minD maxS 0 (refineBoundaries combined minD D)).length ≤ maxS ∧
    List.Chain' (fun s1 s2 => s1.endTime ≤ s2.startTime)
      (buildScenes D minD maxS 0 (refineBoundaries combined minD D)) := by
  have hch := chain_refineFilter minD (combined ++ [endBoundary D]) startBoundary
  have hbound : ∀ x ∈ startBoundary ::
      refineFilter minD startBoundary (combined ++ [endBoundary D]), x.timestamp ≤ D := by
    intro x hx
    rcases List.mem_cons.mp hx with rfl | hx'
    · exact hD.le
    · have hmem := mem_refineFilter minD _ _ _ hx'
      rcases List.mem_append.mp hmem with h1 | h1
      · exact hcomb x h1
      · rw [List.mem_singleton.mp h1]
        exact le_refl D
  obtain ⟨h1, h2, h3, _⟩ := buildScenes_invariant D minD hmin
    (refineFilter minD startBoundary (combined ++ [endBoundary D])) maxS 0 startBoundary
    (le_refl 0) hch hbound
  exact ⟨h1, h2, h3⟩

/-- C5: the scene-list invariant.  For a positive video duration, a positive
minimum scene duration, and analyzer boundaries that (as the sampling loops
of the analyzers guarantee) never exceed the video duration, every scene
list produced by AdvancedSceneDetection.detectScenes satisfies
0 <= startTime < endTime <= videoDuration, duration = endTime - startTime
>= minSceneDuration, holds at most maxScenes scenes, and is time-ordered and
pairwise non-overlapping. -/
theorem c5_scene_list_invariant (cfg : DetectionConfig) (D : ℚ)
    (pd aa ch mv fd : List SceneBoundary) (llama : Bool)
    (hD : 0 < D) (hmin : 0 < cfg.minSceneDuration)
    (hts : ∀ b ∈ pd ++ aa ++ ch ++ mv ++ fd, b.timestamp ≤ D) :
    SceneListWf D cfg.minSceneDuration cfg.maxScenes
      (advDetectScenes cfg D pd aa ch mv fd llama) := by
  have hgate : ∀ (c : Bool) (l : List SceneBoundary), ∀ b ∈ (if c then l else []), b ∈ l := by
    intro c l b hb
    cases c
    · simp at hb
    · simpa using hb
  have htsR : ∀ b ∈ (if cfg.pixelDifference.enabled then pd else [])
      ++ (if cfg.audioAmplitude.enabled then aa else [])
      ++ (if cfg.colorHistogram.enabled then ch else [])
      ++ (if cfg.motionVector.enabled then mv else [])
      ++ (if cfg.faceDetection.enabled then fd else []), b.timestamp ≤ D := by
    intro b hb
    simp only [List.mem_append] at hb
    rcases hb with ((((hb | hb) | hb) | hb) | hb)
    all_goals have hb' := hgate _ _ _ hb
    all_goals exact hts b (by simp only [List.mem_append]; tauto)
  have hcomb := combine_timestamp_le cfg D _ _ _ _ _ htsR
  obtain ⟨hwf, hlen, hch'⟩ := refined_scene_invariant cfg.minSceneDuration D hmin hD
    (combineDetectionResults cfg
      (if cfg.pixelDifference.enabled then pd else [])
      (if cfg.audioAmplitude.enabled then aa else [])
      (if cfg.colorHistogram.enabled then ch else [])
      (if cfg.motionVector.enabled then mv else [])
      (if cfg.faceDetection.enabled then fd else []))
    cfg.maxScenes hcomb
  simp only [advDetectScenes]
  by_cases hflag : (cfg.preserveContext || cfg.maintainNarrativeFlow) = true
  · rw [if_pos hflag]
    unfold applyContextualRefinements
    have hnn : (!cfg.preserveContext && !cfg.maintainNarrativeFlow) = false := by
      cases hp : cfg.preserveContext <;> cases hq : cfg.maintainNarrativeFlow <;>
        simp_all
    rw [if_neg (by simp [hnn])]
    cases llama with
    | false =>
        rw [if_neg (by simp)]
        exact ⟨hwf, hlen, chain'_endTime_pairwise _ (fun s hs => (hwf s hs).2.1) hch'⟩
    | true =>
        rw [if_pos rfl]
        obtain ⟨mwf, mlen, mch, _⟩ := mergeScenesPass_preserves D cfg.minSceneDuration _ hwf hch'
        exact ⟨mwf, le_trans mlen hlen, chain'_endTime_pairwise _ (fun s hs => (mwf s hs).2.1) mch⟩
  · rw [if_neg hflag]
    exact ⟨hwf, hlen, chain'_endTime_pairwise _ (fun s hs => (hwf s hs).2.1) hch'⟩

/-- Witness for C5 at the worked example of the specification: 120 second
video, only pixelDifference enabled, raw boundaries at 30 and 31.5
seconds. -/
theorem c5_scene_list_invariant_witness :
    SceneListWf 120 exCfg.minSceneDuration exCfg.maxScenes
      (advDetectScenes exCfg 120 [exB30, exB315] [] [] [] [] false) :=
  c5_scene_list_invariant exCfg 120 [exB30, exB315] [] [] [] [] false
    (by norm_num) (by norm_num [exCfg]) (by
      intro b hb
      simp only [List.append_nil] at hb
      rcases List.mem_cons.mp hb with rfl | hb'
      · norm_num [exB30]
      · rw [List.mem_singleton.mp hb']
        norm_num [exB315])

theorem updateFirst_isEmpty (p : α → Bool) (f : α → α) (l : List α) :
    (updateFirst p f l).isEmpty = l.isEmpty := by
  cases l with
  | nil => rfl
  | cons a t => by_cases hp : p a = true <;> simp [updateFirst, hp]

theorem clipsAfterPayload_isEmpty (cs : List ClipGenerationJob) (s : Option String)
    (d : CompleteData) (n : Nat) :
    (clipsAfterPayload cs s d n).isEmpty = cs.isEmpty := by
  unfold clipsAfterPayload
  split
  · cases s with
    | none => rfl
    | some sid => exact updateFirst_isEmpty _ _ _
  · rfl

/-- C1 (amended): on a clip completion message in the clip-generation phase
(detect-scenes completed, generate-clips active), the generate-clips step
ends up completed IF AND ONLY IF, after applying the clip payload, every
clip has status completed and there is at least one clip; and the job status
becomes completed under exactly the same condition.  A clip that is failed
(merely terminal) therefore blocks both. -/
theorem c1_generate_clips_completion_criterion
    (cs : List ClipGenerationJob) (sid : String) (d : CompleteData) (now : Nat) (w : Bool)
    (hsid : strStartsWith sid "clip_" = true) :
    (((handleStepComplete (clipPhaseJob cs) (some sid) d now w).steps.find?
        (fun s => s.id == "generate-clips")).map (fun s => s.status) = some .completed
      ↔ (clipsAfterPayload cs (some sid) d now).all (fun c => c.status == .completed) = true
          ∧ cs ≠ []) ∧
    ((handleStepComplete (clipPhaseJob cs) (some sid) d now w).status = .completed
      ↔ (clipsAfterPayload cs (some sid) d now).all (fun c => c.status == .completed) = true
          ∧ cs ≠ []) := by
  have hne1 : ("detect-scenes" == sid) = false := by
    by_cases h : "detect-scenes" = sid
    · subst h
      exact absurd hsid (by decide)
    · simp [h]
  have hne2 : ("generate-clips" == sid) = false := by
    by_cases h : "generate-clips" = sid
    · subst h
      exact absurd hsid (by decide)
    · simp [h]
  have e1 : (StepStatus.completed == StepStatus.pending) = false := by decide
  have e2 : (StepStatus.active == StepStatus.pending) = false := by decide
  have e3 : (StepStatus.completed == StepStatus.completed) = true := by decide
  have e4 : (StepStatus.active == StepStatus.completed) = false := by decide
  have e5 : (StepStatus.active == StepStatus.active) = true := by decide
  have e6 : (StepStatus.completed == StepStatus.active) = false := by decide
  have s1 : ("detect-scenes" == "generate-clips") = false := by decide
  have s2 : ("generate-clips" == "generate-clips") = true := by decide
  have hempty : ((clipsAfterPayload cs (some sid) d now).isEmpty = true) ↔ cs = [] := by
    rw [clipsAfterPayload_isEmpty]
    exact List.isEmpty_iff
  obtain ⟨ds, dc⟩ := d
  by_cases hb : ((clipsAfterPayload cs (some sid) ⟨ds, dc⟩ now).all
      (fun c => c.status == .completed)
      && !(clipsAfterPayload cs (some sid) ⟨ds, dc⟩ now).isEmpty) = true
  · have hrhs : (clipsAfterPayload cs (some sid) ⟨ds, dc⟩ now).all
        (fun c => c.status == .completed) = true ∧ cs ≠ [] := by
      rw [Bool.and_eq_true, Bool.not_eq_true'] at hb
      refine ⟨hb.1, fun hnil => ?_⟩
      have h2 := hb.2
      rw [hempty.mpr hnil] at h2
      simp at h2
    cases ds <;>
      (simp only [handleStepComplete, markStepCompleted, applyScenes, applyClipPayload,
        checkAllClipsComplete, startNextStep, executeStep, generateClipsForAllPlatforms,
        handleStepError, clipPhaseJob, dsStepDone, gcStepActive, updateFirst, hne1, hne2,
        hsid, hb, e1, e2, e3, e4, e5, e6, s1, s2, List.find?, List.all_cons, List.all_nil,
        Bool.and_true, Bool.true_and, Bool.and_false, Bool.false_and,
        Bool.false_eq_true, if_false, if_true, ite_true, ite_false]
       simp [hrhs])
  · have hbf : ((clipsAfterPayload cs (some sid) ⟨ds, dc⟩ now).all
        (fun c => c.status == .completed)
        && !(clipsAfterPayload cs (some sid) ⟨ds, dc⟩ now).isEmpty) = false :=
      Bool.eq_false_iff.mpr hb
    have hrhs : ¬ ((clipsAfterPayload cs (some sid) ⟨ds, dc⟩ now).all
        (fun c => c.status == .completed) = true ∧ cs ≠ []) := by
      rw [Bool.and_eq_true, Bool.not_eq_true'] at hb
      intro hcon
      apply hb
      refine ⟨hcon.1, ?_⟩
      rw [clipsAfterPayload_isEmpty, Bool.eq_false_iff]
      intro h
      exact hcon.2 (List.isEmpty_iff.mp h)
    cases ds <;>
      (simp only [handleStepComplete, markStepCompleted, applyScenes, applyClipPayload,
        checkAllClipsComplete, startNextStep, executeStep, generateClipsForAllPlatforms,
        handleStepError, clipPhaseJob, dsStepDone, gcStepActive, updateFirst, hne1, hne2,
        hsid, hbf, e1, e2, e3, e4, e5, e6, s1, s2, List.find?, List.all_cons, List.all_nil,
        Bool.and_true, Bool.true_and, Bool.and_false, Bool.false_and,
        Bool.false_eq_true, if_false, if_true, ite_true, ite_false]
       split <;> simp_all [hrhs])

/-- Witness for C1: with a single completed clip, the completion message
for it completes both the generate-clips step and the job. -/
theorem c1_generate_clips_completion_criterion_witness :
    (((handleStepComplete (clipPhaseJob [c1WitClip]) (some "clip_s1_linkedin") {} 3 true).steps.find?
        (fun s => s.id == "generate-clips")).map (fun s => s.status) = some .completed
      ↔ (clipsAfterPayload [c1WitClip] (some "clip_s1_linkedin") {} 3).all
          (fun c => c.status == .completed) = true ∧ [c1WitClip] ≠ []) ∧
    ((handleStepComplete (clipPhaseJob [c1WitClip]) (some "clip_s1_linkedin") {} 3 true).status
        = .completed
      ↔ (clipsAfterPayload [c1WitClip] (some "clip_s1_linkedin") {} 3).all
          (fun c => c.status == .completed) = true ∧ [c1WitClip] ≠ []) :=
  c1_generate_clips_completion_criterion [c1WitClip] "clip_s1_linkedin" {} 3 true (by decide)

theorem updateFirst_eq_self_of_find? {p : α → Bool} {f : α → α} :
    ∀ {l : List α} {a : α}, l.find? p = some a → f a = a → updateFirst p f l = l
  | [], _, h, _ => by cases h
  | b :: t, a, h, hfa => by
      by_cases hp : p b = true
      · rw [List.find?_cons_of_pos _ hp] at h
        injection h with h
        subst h
        simp [updateFirst, hp, hfa]
      · have hp' : p b = false := by simpa using hp
        rw [List.find?_cons_of_neg _ (by simp [hp'])] at h
        simp only [updateFirst, hp', Bool.false_eq_true, if_false]
        rw [updateFirst_eq_self_of_find? h hfa]

theorem resetFailedStep_of_ne {s : ProcessingStep} (h : s.status ≠ .failed) :
    resetFailedStep s = s := by
  simp [resetFailedStep, h]

theorem resetFailedStep_id (s : ProcessingStep) : (resetFailedStep s).id = s.id := by
  unfold resetFailedStep
  split <;> rfl

theorem resetFailedStep_status (s : ProcessingStep) :
    (resetFailedStep s).status = .pending ∨ (resetFailedStep s).status = s.status := by
  unfold resetFailedStep
  split
  · exact Or.inl rfl
  · exact Or.inr rfl

/-- retryJobOne on a failed job whose reset step list starts with a pending
step: that step is activated (status active, start time set) and executed,
the job set to processing with progress 0 and error cleared. -/
theorem retryJobOne_resume_head (j : VideoProcessingJob) (r : ProcessingStep)
    (t : List ProcessingStep) (now : Nat) (w : Bool)
    (hb : (j.status == JobStatus.failed) = true)
    (hmap : j.steps.map resetFailedStep = r :: t)
    (hr : (r.status == StepStatus.pending) = true) :
    retryJobOne j now w
      = executeStep
          { j with steps := { r with status := .active, startTime := some now } :: t,
                   status := .processing, error := none, progress := 0, updatedAt := now,
                   currentStep := some r.id }
          r.id now w := by
  have hfp : List.find? (fun s => s.status == StepStatus.pending) (r :: t) = some r :=
    List.find?_cons_of_pos t hr
  unfold retryJobOne
  rw [if_pos hb]
  simp only [hmap, startNextStep, hfp, updateFirst, hr, if_true]

/-- retryJobOne on a failed job whose reset step list is a non-pending step
followed by a pending one: the second step is activated and executed. -/
theorem retryJobOne_resume_second (j : VideoProcessingJob) (a r : ProcessingStep)
    (t : List ProcessingStep) (now : Nat) (w : Bool)
    (hb : (j.status == JobStatus.failed) = true)
    (hmap : j.steps.map resetFailedStep = a :: r :: t)
    (ha : (a.status == StepStatus.pending) = false)
    (hr : (r.status == StepStatus.pending) = true) :
    retryJobOne j now w
      = executeStep
          { j with steps := a :: { r with status := .active, startTime := some now } :: t,
                   status := .processing, error := none, progress := 0, updatedAt := now,
                   currentStep := some r.id }
          r.id now w := by
  have hfp : List.find? (fun s => s.status == StepStatus.pending) (a :: r :: t) = some r := by
    rw [List.find?_cons_of_neg (r :: t) (by simp [ha])]
    exact List.find?_cons_of_pos t hr
  unfold retryJobOne
  rw [if_pos hb]
  simp only [hmap, startNextStep, hfp, updateFirst, ha, hr, if_true, Bool.false_eq_true,
    if_false]

/-- C4 (amended): retryJob is a no-op when the found job is not failed.
On a failed job it resets every failed step to pending with progress 0 and
error/start/end times cleared, leaves completed steps untouched (given
distinct step ids), sets the job to processing with progress 0 and error
cleared, and resumes from the first pending step of the reset list, marking
it active with the current time as its start time: with a ready worker, a
two-step [detect-scenes, generate-clips] job whose detect-scenes step failed
is reset and reactivated at detect-scenes, and one whose generate-clips step
failed after detect-scenes completed (scenes present) is reset and
reactivated at generate-clips.  On a failed job whose steps are none of them
failed or pending, the job-level fields still change (status to processing,
error cleared, progress 0) — so the zero-failed-step case is NOT free of
state change. -/
theorem c4_retry_behaviour (jobs : List VideoProcessingJob) (jid : String)
    (j : VideoProcessingJob) (now : Nat) (w : Bool)
    (hfind : jobs.find? (fun x => x.id == jid) = some j)
    (hids : (j.steps.map (fun s => s.id)).Nodup) :
    (j.status ≠ .failed → retryJob jobs jid now w = jobs) ∧
    ((∀ s ∈ j.steps, s.status ≠ .failed ∧ s.status ≠ .pending) → j.status = .failed →
        retryJobOne j now w
          = { j with status := .processing, error := none, progress := 0, updatedAt := now }) ∧
    (∀ s ∈ j.steps, s.status = .completed → s ∈ (retryJobOne j now w).steps) ∧
    (∀ s1 s2 : ProcessingStep, j.steps = [s1, s2] → s1.id = "detect-scenes" →
        s2.id = "generate-clips" → j.status = .failed → s1.status = .failed →
        (retryJobOne j now true).steps
            = [{ s1 with status := .active, progress := 0, error := none,
                         startTime := some now, endTime := none },
               if s2.status = .failed then
                 { s2 with status := .pending, progress := 0, error := none,
                           startTime := none, endTime := none }
               else s2] ∧
          (retryJobOne j now true).status = .processing ∧
          (retryJobOne j now true).error = none ∧
          (retryJobOne j now true).progress = 0 ∧
          (retryJobOne j now true).currentStep = some "detect-scenes") ∧
    (∀ s1 s2 : ProcessingStep, j.steps = [s1, s2] → s1.id = "detect-scenes" →
        s2.id = "generate-clips" → j.status = .failed → s1.status = .completed →
        s2.status = .failed → j.scenes ≠ [] →
        (retryJobOne j now true).steps
            = [s1, { s2 with status := .active, progress := 0, error := none,
                             startTime := some now, endTime := none }] ∧
          (retryJobOne j now true).status = .processing ∧
          (retryJobOne j now true).error = none ∧
          (retryJobOne j now true).progress = 0 ∧
          (retryJobOne j now true).currentStep = some "generate-clips") := by
  refine ⟨?_, ?_, ?_, ?_, ?_⟩
  · intro hstat
    have hone : retryJobOne j now w = j := by
      unfold retryJobOne
      rw [if_neg]
      simp [hstat]
    exact updateFirst_eq_self_of_find? hfind hone
  · intro hall hfail
    have hsteps : j.steps.map resetFailedStep = j.steps := by
      have h1 : j.steps.map resetFailedStep = j.steps.map id :=
        List.map_congr_left (fun s hs => resetFailedStep_of_ne (hall s hs).1)
      rw [h1, List.map_id]
    unfold retryJobOne
    rw [if_pos (by simp [hfail])]
    simp only [hsteps]
    unfold startNextStep
    rw [List.find?_eq_none.mpr (fun x hx => by simp [(hall x hx).2])]
  · intro s hs hcomp
    unfold retryJobOne
    by_cases hf : (j.status == JobStatus.failed) = true
    · rw [if_pos hf]
      have hreset : resetFailedStep s = s := resetFailedStep_of_ne (by simp [hcomp])
      have hs1 : s ∈ j.steps.map resetFailedStep := by
        rw [← hreset]
        exact List.mem_map_of_mem resetFailedStep hs
      have hidsm : ((j.steps.map resetFailedStep).map (fun s => s.id)).Nodup := by
        rw [List.map_map]
        have : j.steps.map ((fun s : ProcessingStep => s.id) ∘ resetFailedStep)
            = j.steps.map (fun s => s.id) :=
          List.map_congr_left (fun x _ => resetFailedStep_id x)
        rw [this]
        exact hids
      unfold startNextStep
      cases hfp : (j.steps.map resetFailedStep).find? (fun s => s.status == .pending) with
      | none =>
          simp only [hfp]
          exact hs1
      | some nxt =>
          simp only [hfp]
          have hnxt_mem : nxt ∈ j.steps.map resetFailedStep := List.mem_of_find?_eq_some hfp
          have hnxt_p : (nxt.status == StepStatus.pending) = true := by
            have h0 := List.find?_some hfp
            exact h0
          have hne : s ≠ nxt := by
            intro hcon
            rw [← hcon] at hnxt_p
            rw [hcomp] at hnxt_p
            simp at hnxt_p
          have hid : (s.id == nxt.id) = false := by
            rw [Bool.eq_false_iff]
            intro hcon
            exact hne (List.inj_on_of_nodup_map hidsm hs1 hnxt_mem (by simpa using hcon))
          have hs2 : s ∈ updateFirst (fun s => s.status == .pending)
              (fun s => { s with status := .active, startTime := some now })
              (j.steps.map resetFailedStep) :=
            mem_updateFirst_of_pred_false hs1 (by simp [hcomp])
          unfold executeStep
          by_cases hw : w = true
          · rw [if_neg (by simp [hw])]
            by_cases h1 : (nxt.id == "detect-scenes") = true
            · rw [if_pos h1]
              exact hs2
            · rw [if_neg (by simp at h1 ⊢; exact h1)]
              by_cases h2 : (nxt.id == "generate-clips") = true
              · rw [if_pos h2]
                have hidg : (s.id == "generate-clips") = false := by
                  rw [Bool.eq_false_iff]
                  intro hcon
                  rw [beq_iff_eq] at hcon h2
                  have hEq : (s.id == nxt.id) = true := by rw [beq_iff_eq, hcon, h2]
                  rw [hid] at hEq
                  cases hEq
                unfold generateClipsForAllPlatforms
                split
                · exact mem_updateFirst_of_pred_false hs2 hidg
                · exact mem_updateFirst_of_pred_false hs2 hidg
              · rw [if_neg (by simp at h2 ⊢; exact h2)]
                unfold handleStepError
                exact mem_updateFirst_of_pred_false hs2 hid
          · rw [if_pos (by simp [hw])]
            unfold handleStepError
            exact mem_updateFirst_of_pred_false hs2 hid
    · rw [if_neg (by simp at hf ⊢; exact hf)]
      exact hs
  · intro s1 s2 hsteps hid1 hid2 hfail h1f
    have hb : (j.status == JobStatus.failed) = true := by rw [hfail]; rfl
    have hr1 : resetFailedStep s1
        = { s1 with status := .pending, progress := 0, error := none,
                    startTime := none, endTime := none } := by
      unfold resetFailedStep
      rw [if_pos (by rw [h1f]; rfl)]
    have hmap : j.steps.map resetFailedStep
        = { s1 with status := .pending, progress := 0, error := none,
                    startTime := none, endTime := none } :: [resetFailedStep s2] := by
      rw [hsteps]
      simp only [List.map_cons, List.map_nil, hr1]
    have hs2 : resetFailedStep s2
        = if s2.status = .failed then
            { s2 with status := .pending, progress := 0, error := none,
                      startTime := none, endTime := none }
          else s2 := by
      unfold resetFailedStep
      by_cases h : s2.status = .failed
      · rw [if_pos (by rw [h]; rfl), if_pos h]
      · rw [if_neg (by simp [h]), if_neg h]
    have key := retryJobOne_resume_head j _ _ now true hb hmap (by rfl)
    rw [key]
    refine ⟨?_, ?_, ?_, ?_, ?_⟩ <;>
      simp [executeStep, hid1, hs2]
  · intro s1 s2 hsteps hid1 hid2 hfail h1c h2f hsc
    have hb : (j.status == JobStatus.failed) = true := by rw [hfail]; rfl
    have hr1 : resetFailedStep s1 = s1 :=
      resetFailedStep_of_ne (by rw [h1c]; simp)
    have hr2 : resetFailedStep s2
        = { s2 with status := .pending, progress := 0, error := none,
                    startTime := none, endTime := none } := by
      unfold resetFailedStep
      rw [if_pos (by rw [h2f]; rfl)]
    have hmap : j.steps.map resetFailedStep
        = s1 :: { s2 with status := .pending, progress := 0, error := none,
                          startTime := none, endTime := none } :: [] := by
      rw [hsteps]
      simp only [List.map_cons, List.map_nil, hr1, hr2]
    have hie : j.scenes.isEmpty = false := by
      rw [Bool.eq_false_iff]
      intro h
      exact hsc (List.isEmpty_iff.mp h)
    have key := retryJobOne_resume_second j s1 _ [] now true hb hmap
      (by rw [h1c]; rfl) (by rfl)
    rw [key]
    refine ⟨?_, ?_, ?_, ?_, ?_⟩ <;>
      simp [executeStep, generateClipsForAllPlatforms, updateFirst, hie, hid1, hid2]

/-- Witness for C4: the no-op clause discharged at a processing job, the
failed-detect-scenes resume discharged at a job whose detect-scenes step
failed, and the failed-generate-clips resume discharged at a job whose
generate-clips step failed after detect-scenes completed. -/
theorem c4_retry_behaviour_witness :
    retryJob [c4ProcJob] "job_1" 9 true = [c4ProcJob] ∧
    ((retryJobOne c4FailJob 9 true).steps
        = [{ id := "detect-scenes", progress := 0, status := .active,
             startTime := some 9, endTime := none, error := none },
           { id := "generate-clips", progress := 0, status := .pending }] ∧
      (retryJobOne c4FailJob 9 true).status = .processing ∧
      (retryJobOne c4FailJob 9 true).error = none ∧
      (retryJobOne c4FailJob 9 true).progress = 0 ∧
      (retryJobOne c4FailJob 9 true).currentStep = some "detect-scenes") ∧
    ((retryJobOne c4GcJob 9 true).steps
        = [{ id := "detect-scenes", progress := 100, status := .completed },
           { id := "generate-clips", progress := 0, status := .active,
             startTime := some 9, endTime := none, error := none }] ∧
      (retryJobOne c4GcJob 9 true).status = .processing ∧
      (retryJobOne c4GcJob 9 true).error = none ∧
      (retryJobOne c4GcJob 9 true).progress = 0 ∧
      (retryJobOne c4GcJob 9 true).currentStep = some "generate-clips") := by
  refine ⟨?_, ?_, ?_⟩
  · exact (c4_retry_behaviour [c4ProcJob] "job_1" c4ProcJob 9 true (by rfl)
      (by decide)).1 (by decide)
  · exact (c4_retry_behaviour [c4FailJob] "job_1" c4FailJob 9 true (by rfl)
      (by decide)).2.2.2.1 _ _ rfl rfl rfl rfl rfl
  · exact (c4_retry_behaviour [c4GcJob] "job_1" c4GcJob 9 true (by rfl)
      (by decide)).2.2.2.2 _ _ rfl rfl rfl rfl rfl rfl (by decide)
